import Mathlib

/-! The worker ppt2scorm-worker: the `/convert` pipeline of `src/server.js`.

A shallow embedding of the worker's request handler, of the two document templates
(`renderIndexHtml`, `renderManifest`), of the escaping helpers and of the navigation script that
the generated viewer runs, followed by the properties of the specification that were checked
against them.

Conventions of the embedding.

* A JavaScript string is the list of its UTF-16 code units (`JSString`), so that `length` and
  `slice` count what JavaScript counts.
* Everything the handler obtains from outside (environment variable, request, `nanoid()`, the
  outcome of file-system calls and of the two external tools, the directory listing) is a field
  of `World` or `Request`; the handler is then a total function of them.
* The effects of one run are collected in a `Run` record: the response, the response headers,
  the entries handed to the archiver, the external commands started, the directories left behind.
-/

set_option autoImplicit false
set_option maxRecDepth 100000

namespace Ppt2Scorm

/-! ## JavaScript strings -/

/-- A JavaScript string: the sequence of its UTF-16 code units. -/
abbrev JSString := List Nat

/-- Code units of a string literal (every literal used below lies in the Basic Multilingual
Plane, where a character is one code unit). -/
def js (s : String) : JSString := s.toList.map Char.toNat

/-- Code units of a template text given line by line. -/
def text (ls : List String) : JSString := (ls.map js).flatten

/-- The method `String.prototype.endsWith`. -/
def endsWith (s suffix : JSString) : Bool := suffix.isSuffixOf s

/-- White space and line terminators of ECMAScript (`TAB VT FF SP NBSP ZWNBSP`, category `Zs`,
`LF CR LS PS`): the code units `String.prototype.trim` removes. -/
def isWhiteSpace (c : Nat) : Bool :=
  c = 9 || c = 10 || c = 11 || c = 12 || c = 13 || c = 32 || c = 160 || c = 5760 ||
  (8192 ≤ c && c ≤ 8202) || c = 8232 || c = 8233 || c = 8239 || c = 8287 || c = 12288 ||
  c = 65279

/-- The method `String.prototype.trim`. -/
def trim (s : JSString) : JSString :=
  ((s.dropWhile isWhiteSpace).reverse.dropWhile isWhiteSpace).reverse

/-- Lower-casing of one code unit: `A`..`Z` go to `a`..`z`; other code units are kept. -/
def lowerUnit (c : Nat) : Nat := if 65 ≤ c ∧ c ≤ 90 then c + 32 else c

/-- The method `String.prototype.toLowerCase`, on its ASCII part. Code units outside ASCII are
kept as they are: no character outside ASCII lower-cases to `.`, `p`, `n` or `g`, the only
code units the handler looks for in a lower-cased name. -/
def toLowerCase (s : JSString) : JSString := s.map lowerUnit

/-- Decimal digits of a natural number, most significant first, with `fuel` bounding the number
of digits. -/
def decimalAux : Nat → Nat → JSString → JSString
  | 0, _, acc => acc
  | fuel + 1, n, acc =>
    if n < 10 then (48 + n) :: acc else decimalAux fuel (n / 10) ((48 + n % 10) :: acc)

/-- The decimal numeral of a natural number, without padding (`String(n)` for such an `n`). -/
def decimal (n : Nat) : JSString := decimalAux (n + 1) n []

/-- The string `'' + i` for an integer `i`. -/
def intToString (i : Int) : JSString :=
  if i < 0 then 45 :: decimal i.natAbs else decimal i.natAbs

/-! ## `escapeHtml`, `escapeXml` -/

/-- The replacement callback of `escapeHtml`: the entity of a code unit matched by the class
`[&<>'"]`, and the code unit itself when it is not matched. -/
def escapeUnit (c : Nat) : JSString :=
  if c = 38 then js "&amp;"
  else if c = 60 then js "&lt;"
  else if c = 62 then js "&gt;"
  else if c = 39 then js "&#39;"
  else if c = 34 then js "&quot;"
  else [c]

/-- The function `escapeHtml`: a global replace of each of `& < > ' "` by its entity. -/
def escapeHtml (s : JSString) : JSString := (s.map escapeUnit).flatten

/-- The function `escapeXml`. -/
def escapeXml (s : JSString) : JSString := escapeHtml s

/-- The five entities `escapeHtml` writes. -/
def entities : List JSString :=
  [js "&amp;", js "&lt;", js "&gt;", js "&#39;", js "&quot;"]

/-- Decoding of the five entities, reading left to right; the first argument counts the code
units of the entity just decoded that remain to be skipped. -/
def decodeEntitiesAux : Nat → JSString → JSString
  | _, [] => []
  | k + 1, _ :: r => decodeEntitiesAux k r
  | 0, c :: r =>
    if (js "&amp;").isPrefixOf (c :: r) then 38 :: decodeEntitiesAux 4 r
    else if (js "&lt;").isPrefixOf (c :: r) then 60 :: decodeEntitiesAux 3 r
    else if (js "&gt;").isPrefixOf (c :: r) then 62 :: decodeEntitiesAux 3 r
    else if (js "&#39;").isPrefixOf (c :: r) then 39 :: decodeEntitiesAux 4 r
    else if (js "&quot;").isPrefixOf (c :: r) then 34 :: decodeEntitiesAux 5 r
    else c :: decodeEntitiesAux 0 r

/-- Decoding of the five entities `&amp; &lt; &gt; &#39; &quot;`: the reference decoder that
the round-trip property of the title is stated against. -/
def decodeEntities (s : JSString) : JSString := decodeEntitiesAux 0 s

/-- Every `&` of the string starts one of the five entities. -/
def AmpersandsStartEntities (l : JSString) : Prop :=
  ∀ i, l.get? i = some 38 → ∃ e ∈ entities, e <+: l.drop i

/-! ## `JSON.stringify` of an array of strings -/

/-- A hexadecimal digit in lower case. -/
def hexDigit (d : Nat) : Nat := if d < 10 then 48 + d else 87 + d

/-- Four lower-case hexadecimal digits of a code unit. -/
def hex4 (c : Nat) : JSString :=
  [hexDigit (c / 4096 % 16), hexDigit (c / 256 % 16), hexDigit (c / 16 % 16), hexDigit (c % 16)]

/-- The escape `\uXXXX` of a code unit. -/
def unicodeEscape (c : Nat) : JSString := 92 :: 117 :: hex4 c

/-- The abstract operation `QuoteJSONString` without the enclosing quotes: short escapes for
backspace, tab, line feed, form feed, carriage return, the quote and the backslash; `\uXXXX`
for the other control code units and for lone surrogates; everything else verbatim. -/
def quoteJSONBody : JSString → JSString
  | [] => []
  | c :: r =>
    if c = 8 then 92 :: 98 :: quoteJSONBody r
    else if c = 9 then 92 :: 116 :: quoteJSONBody r
    else if c = 10 then 92 :: 110 :: quoteJSONBody r
    else if c = 12 then 92 :: 102 :: quoteJSONBody r
    else if c = 13 then 92 :: 114 :: quoteJSONBody r
    else if c = 34 then 92 :: 34 :: quoteJSONBody r
    else if c = 92 then 92 :: 92 :: quoteJSONBody r
    else if c < 32 then unicodeEscape c ++ quoteJSONBody r
    else if 55296 ≤ c ∧ c ≤ 56319 then
      match r with
      | d :: r2 =>
        if 56320 ≤ d ∧ d ≤ 57343 then c :: d :: quoteJSONBody r2
        else unicodeEscape c ++ quoteJSONBody (d :: r2)
      | [] => unicodeEscape c
    else if 56320 ≤ c ∧ c ≤ 57343 then unicodeEscape c ++ quoteJSONBody r
    else c :: quoteJSONBody r

/-- The call `JSON.stringify(slides)` for an array of strings. -/
def jsonStringify (xs : List JSString) : JSString :=
  js "[" ++ (js ",").intercalate (xs.map (fun s => js "\"" ++ quoteJSONBody s ++ js "\""))
    ++ js "]"

/-! ## The two templates -/

/-- Text of the viewer template before the title element. -/
def indexHtmlHead : List String :=
  ["<!doctype html>\n",
   "<html lang=\"en\"><head>\n",
   "<meta charset=\"utf-8\"/>"]

/-- Text of the viewer template between the title element and the embedded slide array. -/
def indexHtmlStyleScript : List String :=
  ["\n",
   "<meta name=\"viewport\" content=\"width=device-width, initial-scale=1\"/>\n",
   "<style>\n",
   ":root \x7b --bg:#0b0c10; --fg:#e8e8e8; --muted:#9aa0a6; --accent:#3b82f6; \x7d\n",
   "*\x7bbox-sizing:border-box\x7d html,body\x7bheight:100%;margin:0;background:var(--bg);color:var(--fg);font-family:system-ui,-apple-system,Segoe UI,Roboto,Arial,sans-serif\x7d\n",
   ".wrap\x7bheight:100%;display:grid;grid-template-rows:1fr auto\x7d\n",
   ".stage\x7bdisplay:grid;place-items:center;padding:12px\x7d\n",
   ".stage img\x7bmax-width:100%;max-height:calc(100vh - 120px);border-radius:12px;background:#111\x7d\n",
   ".bar\x7bdisplay:flex;align-items:center;justify-content:space-between;gap:12px;padding:12px 16px;border-top:1px solid #1f2937;background:#0f1115\x7d\n",
   ".group\x7bdisplay:flex;align-items:center;gap:8px\x7d\n",
   "button\x7ball:unset;padding:10px 14px;border-radius:10px;background:#1f2937;cursor:pointer\x7d\n",
   "button:hover\x7bbackground:#243042\x7d button[disabled]\x7bopacity:.4;cursor:not-allowed\x7d\n",
   ".pill\x7bpadding:8px 12px;border-radius:999px;background:#111827;color:var(--muted);font-size:13px\x7d\n",
   ".progress\x7bposition:relative;flex:1;height:8px;background:#1f2937;border-radius:999px;overflow:hidden\x7d\n",
   ".progress>span\x7bposition:absolute;left:0;top:0;bottom:0;width:0%;background:var(--accent)\x7d\n",
   "a.link\x7bcolor:var(--muted);text-decoration:underline\x7d\n",
   "</style>\n",
   "<script>\n",
   "let API=null;function findAPI(w)\x7blet d=0;while(w&&d++<10)\x7bif(w.API)return w.API;try\x7bif(w.parent&&w.parent!==w)w=w.parent;else break;\x7dcatch(e)\x7bbreak;\x7d\x7dreturn null\x7d\n",
   "function getAPI()\x7bif(API)return API;try\x7bAPI=findAPI(window)||findAPI(window.opener)\x7dcatch(e)\x7b\x7dreturn API\x7d\n",
   "const Local=\x7bLMSInitialize:()=> \"true\",LMSFinish:()=> \"true\",LMSGetValue:(k)=> localStorage.getItem(\x27loc:\x27+k)||\"\",LMSSetValue:(k,v)=> \x7blocalStorage.setItem(\x27loc:\x27+k,String(v));return \"true\"\x7d,LMSCommit:()=> \"true\"\x7d;\n",
   "function scorm()\x7breturn getAPI()||Local\x7d\n",
   "const slides="]

/-- Text of the viewer template after the embedded slide array. -/
def indexHtmlTail : List String :=
  [";\n",
   "let idx=0;\n",
   "function set(i)\x7b\n",
   "  idx=Math.max(0,Math.min(i,slides.length-1));\n",
   "  document.getElementById(\x27s\x27).src=slides[idx];\n",
   "  document.getElementById(\x27c\x27).textContent=(idx+1)+\x27/\x27+slides.length;\n",
   "  document.getElementById(\x27p\x27).disabled=(idx===0);\n",
   "  document.getElementById(\x27n\x27).disabled=(idx===slides.length-1);\n",
   "  scorm().LMSSetValue(\x27cmi.core.lesson_location\x27,\x27\x27+idx);\n",
   "  const st=(idx===slides.length-1)?\x27completed\x27:\x27incomplete\x27;\n",
   "  scorm().LMSSetValue(\x27cmi.core.lesson_status\x27,st);\n",
   "\x7d\n",
   "window.addEventListener(\x27load\x27,()=>\x7bscorm().LMSInitialize(\x27\x27);set(0)\x7d);\n",
   "window.addEventListener(\x27beforeunload\x27,()=>\x7bscorm().LMSCommit(\x27\x27);scorm().LMSFinish(\x27\x27)\x7d);\n",
   "</script>\n",
   "</head>\n",
   "<body>\n",
   "<div class=\"wrap\">\n",
   "  <div class=\"stage\"><img id=\"s\" alt=\"Slide\"/></div>\n",
   "  <div class=\"bar\">\n",
   "    <div class=\"group\">\n",
   "      <button id=\"p\" onclick=\"set(idx-1)\">\u25C0 Prev</button>\n",
   "      <span id=\"c\" class=\"pill\"></span>\n",
   "      <button id=\"n\" onclick=\"set(idx+1)\">Next \u25B6</button>\n",
   "    </div>\n",
   "    <div class=\"progress\" aria-hidden=\"true\"><span id=\"prog\"></span></div>\n",
   "    <a class=\"link\" href=\"https://www.linkedin.com/in/bilal-boussetta/\" target=\"_blank\" rel=\"noreferrer\">by Bilal Boussetta</a>\n",
   "  </div>\n",
   "</div>\n",
   "<script>\n",
   "const prog=document.getElementById(\x27prog\x27);\n",
   "new MutationObserver(()=>\x7b prog.style.width=((idx+1)/slides.length*100).toFixed(0)+\x27%\x27;\x7d)\n",
   ".observe(document.getElementById(\x27c\x27),\x7bchildList:true\x7d);\n",
   "</script>\n",
   "</body></html>"]

/-- Text of the manifest template before the organization title. -/
def manifestHead : List String :=
  ["<manifest identifier=\"MANIFEST-1\" version=\"1.0\"\n",
   "  xmlns:adlcp=\"http://www.adlnet.org/xsd/adlcp_rootv1p2\"\n",
   "  xmlns:imsmd=\"http://www.imsglobal.org/xsd/imsmd_rootv1p2p1\"\n",
   "  xmlns=\"http://www.imsproject.org/xsd/imscp_rootv1p1p2\">\n",
   "  <organizations default=\"ORG-1\">\n",
   "    <organization identifier=\"ORG-1\">\n",
   "      "]

/-- Text of the manifest template between the organization title and the file list of the resource. -/
def manifestMiddle : List String :=
  ["\n",
   "      <item identifier=\"ITEM-1\" identifierref=\"RES-1\" isvisible=\"true\">\n",
   "        <title>Slides</title>\n",
   "      </item>\n",
   "    </organization>\n",
   "  </organizations>\n",
   "  <resources>\n",
   "    <resource identifier=\"RES-1\" type=\"webcontent\" adlcp:scormtype=\"sco\" href=\"index.html\">\n"]

/-- Text of the manifest template after the file list of the resource. -/
def manifestTail : List String :=
  ["\n",
   "    </resource>\n",
   "  </resources>\n",
   "</manifest>"]

/-- The function `renderIndexHtml(title, slides)`: the viewer page, with the escaped title in
its `title` element and the slide paths embedded as a JSON array. -/
def renderIndexHtml (title : JSString) (slides : List JSString) : JSString :=
  text indexHtmlHead ++ js "<title>" ++ escapeHtml title ++ js "</title>"
    ++ text indexHtmlStyleScript ++ jsonStringify slides ++ text indexHtmlTail

/-- One `file` element of the manifest. -/
def fileElement (f : JSString) : JSString := js "<file href=\"" ++ f ++ js "\"/>"

/-- The function `renderManifest(title, files)`: `filesXml` is the concatenation of one `file`
element per entry of `files`, placed right after the `file` element of `index.html`. -/
def renderManifest (title : JSString) (files : List JSString) : JSString :=
  let filesXml := (files.map fileElement).flatten
  text manifestHead ++ js "<title>" ++ escapeXml title ++ js "</title>"
    ++ text manifestMiddle ++ js "      " ++ js "<file href=\"index.html\"/>" ++ filesXml
    ++ text manifestTail

/-! ## Slide sequencing -/

/-- The method `Array.prototype.sort(comparefn)`: a stable sort that puts `a` before `b` when
`comparefn(a, b) ≤ 0` (insertion from the right end, which keeps the listing order of entries
that compare equal). -/
def arraySort (comparefn : JSString → JSString → Int) (xs : List JSString) : List JSString :=
  xs.insertionSort (fun a b => comparefn a b ≤ 0)

/-- Lines 101-103 of the handler: the listing of the slides directory, filtered to the names
whose lower-cased form ends in `.png`, sorted with the comparison function of
`new Intl.Collator(undefined, { numeric: true })`, which the host provides and which is the
parameter `compare` here. -/
def sequenceSlides (compare : JSString → JSString → Int) (listing : List JSString) :
    List JSString :=
  arraySort compare (listing.filter (fun n => endsWith (toLowerCase n) (js ".png")))

/-- The name `slide-<n>.png`, with `n` written in decimal without padding. -/
def slideName (n : Nat) : JSString := js "slide-" ++ decimal n ++ js ".png"

/-- A decimal digit. -/
def isDigit (c : Nat) : Bool := 48 ≤ c && c ≤ 57

/-- White space, punctuation and symbols of printable ASCII, in the order in which the root
collation ranks them (all of them before the digits). -/
def asciiSymbolOrder : JSString :=
  js "\t\n\x0b\x0c\r _-,;:!?.\x27\"()[]\x7b\x7d@*/\\&#%`^+<=>|~$"

/-- Rank of a number (a run of digits): after the symbols, before the letters. -/
def numberRank : Nat := 39

/-- Primary rank of a code unit other than a digit: the symbols in the order of
`asciiSymbolOrder`, then (after the numbers) the letters `a`..`z` without regard to case, then
every other code unit by its value. -/
def primaryRank (c : Nat) : Nat :=
  if 97 ≤ c ∧ c ≤ 122 then 40 + (c - 97)
  else if 65 ≤ c ∧ c ≤ 90 then 40 + (c - 65)
  else if c ∈ asciiSymbolOrder then 1 + asciiSymbolOrder.indexOf c
  else 66 + c

/-- Case rank of a code unit: an upper-case letter comes after the same letter in lower case. -/
def caseRank (c : Nat) : Nat := if 65 ≤ c ∧ c ≤ 90 then 1 else 0

/-- Collation elements of a string, each a triple (primary rank, numeric value, case rank): a
maximal run of decimal digits is one element `(numberRank, value of the run, 0)`, any other
code unit `c` is `(primaryRank c, 0, caseRank c)`. The first argument is the value of the digit
run being read, if any. -/
def collationElementsAux : Option Nat → JSString → List (Nat × Nat × Nat)
  | none, [] => []
  | some v, [] => [(numberRank, v, 0)]
  | none, c :: r =>
    if isDigit c then collationElementsAux (some (c - 48)) r
    else (primaryRank c, 0, caseRank c) :: collationElementsAux none r
  | some v, c :: r =>
    if isDigit c then collationElementsAux (some (10 * v + (c - 48))) r
    else (numberRank, v, 0) :: (primaryRank c, 0, caseRank c) :: collationElementsAux none r

/-- Collation elements of a string. -/
def collationElements (s : JSString) : List (Nat × Nat × Nat) := collationElementsAux none s

/-- Collation key of a string: the primary ranks with the numeric values, then a separator
below every rank, then the case ranks, which therefore count only between strings whose
primary parts are equal. -/
def collationKey (s : JSString) : List (Nat × Nat) :=
  (collationElements s).map (fun e => (e.1, e.2.1)) ++
    (0, 0) :: (collationElements s).map (fun e => (e.2.2, 0))

/-- Lexicographic comparison of two collation keys: `true` when the first is not after the
second. -/
def keyLe : List (Nat × Nat) → List (Nat × Nat) → Bool
  | [], _ => true
  | _ :: _, [] => false
  | a :: x, b :: y =>
    if a = b then keyLe x y else (decide (a.1 < b.1) || (decide (a.1 = b.1) && decide (a.2 < b.2)))

/-- Modelled from the spec: the comparison function of
`new Intl.Collator(undefined, { numeric: true })` belongs to the host, not to the repository.
The model follows the glossary entry for natural-sort ordering (a contiguous run of digits is
compared as a numeric value, not digit by digit) and, for the other code units of printable
ASCII, the root collation order: white space, punctuation and symbols before numbers, numbers
before letters, letters in alphabetical order without regard to case, and a lower-case letter
before the same upper-case letter when nothing else tells two strings apart. Code units outside
printable ASCII are ranked after the letters by their value. The result is negative, zero or
positive as a comparison function's is. -/
def collatorCompare (a b : JSString) : Int :=
  if keyLe (collationKey a) (collationKey b) then
    (if keyLe (collationKey b) (collationKey a) then 0 else -1)
  else 1

/-- The test of line 102 spelled out on the code units of the name: the name ends in a dot
followed by `p` or `P`, `n` or `N`, `g` or `G`. -/
def hasPngExtension (n : JSString) : Bool :=
  match n.reverse with
  | g :: m :: p :: dot :: _ =>
    decide (dot = 46) && (decide (p = 112) || decide (p = 80)) &&
      (decide (m = 110) || decide (m = 78)) && (decide (g = 103) || decide (g = 71))
  | _ => false

/-! ## The request handler of `POST /convert` -/

/-- The helper `norm(s)`: `String(s ?? "").trim()`, for a value that is a string or absent. -/
def norm (s : Option JSString) : JSString := trim (s.getD [])

/-- The constant `WORKER_SECRET`: the environment variable, normalised. -/
def WORKER_SECRET (envValue : Option JSString) : JSString := norm envValue

/-- What a request brings. -/
structure Request where
  /-- Value of the header `x-worker-secret`, when the request has one. -/
  secretHeader : Option JSString
  /-- Text fields of the multipart body, in order of arrival: name and value. -/
  fields : List (JSString × JSString)
  /-- File name (`info.filename`) of the file part, when the body has one. -/
  file : Option JSString

/-- What the surroundings decide during one run of the handler. An outcome of type
`Option JSString` is `none` when the call succeeds and otherwise the message of the error it
throws or rejects with. -/
structure World where
  /-- The environment variable `WORKER_SECRET`, when it is set. -/
  secretEnv : Option JSString
  /-- The comparison function of `new Intl.Collator(undefined, { numeric: true })`. -/
  compare : JSString → JSString → Int
  /-- Directories that exist when the request arrives. -/
  dirs : List JSString
  /-- The result of `nanoid()`. -/
  jobId : JSString
  /-- Outcome of `fse.ensureDir(tmpDir)`. -/
  ensureTmpDir : Option JSString
  /-- Error raised by the multipart parser (its constructor or its `error` event), if any. -/
  parseError : Option JSString
  /-- Error of the write stream of the upload, if any. -/
  writeError : Option JSString
  /-- Outcome of stage 1, the call `exec` of the `soffice` command: `none` when the command
  exits with code 0, otherwise the message of the error `exec` rejects with. -/
  stage1 : Option JSString
  /-- Whether `<tmpDir>/<baseName>.pdf` exists once stage 1 has exited. -/
  pdfProduced : Bool
  /-- Outcome of `fse.ensureDir(slidesDir)`. -/
  ensureSlidesDir : Option JSString
  /-- Outcome of stage 2, the call `exec` of the `pdftoppm` command, in the same way. -/
  stage2 : Option JSString
  /-- Error of `fs.readdir(slidesDir)`, if any. -/
  readdirError : Option JSString
  /-- Entries of the slides directory as `fs.readdir` lists them. -/
  listing : List JSString
  /-- Whether the archive emits `end` after the listener of line 127 has been attached (the
  listener is attached only once `archive.finalize()` has resolved). -/
  endAfterListen : Bool
  /-- Whether `fse.remove(tmpDir)` throws (the listener swallows the error). -/
  removeFails : Bool

/-- An entry handed to the archiver: `archive.append(content, { name })` or
`archive.file(path, { name })`. -/
inductive Entry where
  | data (name content : JSString)
  | file (name path : JSString)
  deriving DecidableEq

/-- The name of an archive entry. -/
def Entry.name : Entry → JSString
  | .data n _ => n
  | .file n _ => n

/-- The observable result of one run of the handler. -/
structure Run where
  /-- Status of the response; `none` when the handler never responds. -/
  status : Option Nat
  /-- Body passed to `res.send` (empty for the streamed archive). -/
  body : JSString
  /-- Response headers set with `res.setHeader`, in order. -/
  headers : List (JSString × JSString)
  /-- Entries handed to the archiver, in order. -/
  archive : List Entry
  /-- External commands started with `exec`, in order. -/
  commands : List JSString
  /-- Directories that exist when the handler is done. -/
  dirs : List JSString
  deriving DecidableEq

/-- The call `fse.ensureDir(p)` on the set of existing directories. -/
def ensureDir (p : JSString) (dirs : List JSString) : List JSString :=
  if p ∈ dirs then dirs else dirs ++ [p]

/-- The call `fse.remove(p)`: the directory and everything below it disappear. -/
def removeDir (p : JSString) (dirs : List JSString) : List JSString :=
  dirs.filter (fun d => !(d = p || (p ++ js "/").isPrefixOf d))

/-- The `field` listener of the parser, as an update of the variable `title`. -/
def onField (title : JSString) (f : JSString × JSString) : JSString :=
  if f.1 = js "title" ∧ f.2 ≠ [] then f.2.take 200 else title

/-- The variable `title` once every field of the body has been handled. -/
def parseTitle (fields : List (JSString × JSString)) : JSString :=
  fields.foldl onField (js "Converted Presentation")

/-- The expression `filename.replace(/\.[^.]+$/, "")`: the last dot and what follows it are
removed when at least one code unit follows that dot. -/
def stripExtension (filename : JSString) : JSString :=
  let ext := filename.reverse.takeWhile (fun c => c ≠ 46)
  if ext ≠ [] ∧ ext.length < filename.length then
    (filename.reverse.drop (ext.length + 1)).reverse
  else filename

/-- The expression `info.filename || "upload.pptx"`. -/
def fileName (given : JSString) : JSString := if given = [] then js "upload.pptx" else given

/-- State of the promise `parse` when the handler awaits it. -/
inductive Settled where
  | resolved
  | rejected (message : JSString)
  | pending
  deriving DecidableEq

/-- The promise `parse`: rejected by an error of the parser or of the write stream, resolved by
the `close` event of the write stream that the `file` listener opens, and otherwise never
settled (nothing resolves it when the body has no file part). -/
def parse (w : World) (req : Request) : Settled :=
  match w.parseError with
  | some e => .rejected e
  | none =>
    match req.file with
    | none => .pending
    | some _ =>
      match w.writeError with
      | some e => .rejected e
      | none => .resolved

/-- The expression `err?.message || err` for a caught `Error`. -/
def errorText (message : JSString) : JSString := if message = [] then js "Error" else message

/-- The `catch` block: status 500 and the text of the caught error. -/
def caught (message : JSString) (r : Run) : Run :=
  { r with status := some 500, body := js "Worker error: " ++ errorText message }

/-- The job directory `/tmp/<id>`. -/
def tmpDirOf (w : World) : JSString := js "/tmp/" ++ w.jobId

/-- The variable `uploadPath` after parsing. -/
def uploadPathOf (w : World) (req : Request) : JSString :=
  match req.file with
  | none => []
  | some f => tmpDirOf w ++ js "/" ++ fileName f

/-- The variable `baseName` after parsing. -/
def baseNameOf (req : Request) : JSString :=
  match req.file with
  | none => js "presentation"
  | some f => stripExtension (fileName f)

/-- The path `pdfPath`. -/
def pdfPathOf (w : World) (req : Request) : JSString :=
  tmpDirOf w ++ js "/" ++ baseNameOf req ++ js ".pdf"

/-- The path `slidesDir`. -/
def slidesDirOf (w : World) : JSString := tmpDirOf w ++ js "/slides"

/-- The command of stage 1. -/
def stage1Command (w : World) (req : Request) : JSString :=
  js "soffice --headless --convert-to pdf --outdir \"" ++ tmpDirOf w ++ js "\" \""
    ++ uploadPathOf w req ++ js "\""

/-- The command of stage 2. -/
def stage2Command (w : World) (req : Request) : JSString :=
  js "pdftoppm -png \"" ++ pdfPathOf w req ++ js "\" \"" ++ slidesDirOf w ++ js "/slide\""

/-- Lines 107-127: rendering, response headers, archive entries, and the removal of the job
directory by the `end` listener. -/
def package (w : World) (title : JSString) (slideFiles : List JSString) (r : Run) : Run :=
  let slidePaths := slideFiles.map (fun n => js "slides/" ++ n)
  let indexHtml := renderIndexHtml title slidePaths
  let manifestXml := renderManifest title slidePaths
  { status := some 200
    body := []
    headers := r.headers ++
      [(js "Content-Type", js "application/zip"),
       (js "Content-Disposition", js "attachment; filename=\"course_scorm.zip\"")]
    archive := r.archive ++
      [Entry.data (js "index.html") indexHtml, Entry.data (js "imsmanifest.xml") manifestXml]
      ++ slideFiles.map (fun n => Entry.file (js "slides/" ++ n) (slidesDirOf w ++ js "/" ++ n))
    commands := r.commands
    dirs := if w.endAfterListen ∧ ¬ w.removeFails then removeDir (tmpDirOf w) r.dirs else r.dirs }

/-- The handler of `POST /convert`. -/
def convert (w : World) (req : Request) : Run :=
  let r0 : Run :=
    { status := none, body := [], headers := [], archive := [], commands := [], dirs := w.dirs }
  let received := norm req.secretHeader
  let expected := WORKER_SECRET w.secretEnv
  if expected ≠ [] ∧ received ≠ expected then
    { r0 with status := some 401, body := js "Unauthorized" }
  else
    match w.ensureTmpDir with
    | some e => caught e r0
    | none =>
      let r1 := { r0 with dirs := ensureDir (tmpDirOf w) r0.dirs }
      match parse w req with
      | .rejected e => caught e r1
      | .pending => r1
      | .resolved =>
        if uploadPathOf w req = [] then
          { r1 with status := some 400, body := js "No file uploaded" }
        else
          let r2 := { r1 with commands := r1.commands ++ [stage1Command w req] }
          match w.stage1 with
          | some e => caught e r2
          | none =>
            match w.ensureSlidesDir with
            | some e => caught e r2
            | none =>
              let r3 := { r2 with dirs := ensureDir (slidesDirOf w) r2.dirs }
              let r4 := { r3 with commands := r3.commands ++ [stage2Command w req] }
              match w.stage2 with
              | some e => caught e r4
              | none =>
                match w.readdirError with
                | some e => caught e r4
                | none =>
                  let slideFiles := sequenceSlides w.compare w.listing
                  if slideFiles = [] then
                    caught (js "No slides produced. Check input file.") r4
                  else package w (parseTitle req.fields) slideFiles r4

/-! ## The navigation script of the viewer -/

/-- State of the viewer page: the variable `idx`, the properties of the four elements that
`set` writes, and the calls made to `LMSSetValue`, oldest first. -/
structure Viewer where
  /-- The variable `idx`. -/
  idx : Int
  /-- The `src` of the image `s` (`none` for `undefined`). -/
  src : Option JSString
  /-- The text of the counter `c`. -/
  counter : JSString
  /-- The property `disabled` of the button `p` (previous). -/
  prevDisabled : Bool
  /-- The property `disabled` of the button `n` (next). -/
  nextDisabled : Bool
  /-- Calls `LMSSetValue(key, value)` made so far, oldest first. -/
  reported : List (JSString × JSString)

/-- The page before its `load` event: `idx` is 0 and nothing has been written. -/
def Viewer.initial : Viewer :=
  { idx := 0, src := none, counter := [], prevDisabled := false, nextDisabled := false,
    reported := [] }

/-- Element `slides[i]` of the embedded array. -/
def slideAt (slides : List JSString) (i : Int) : Option JSString :=
  if i < 0 then none else slides.get? i.toNat

/-- The function `set(i)` of the viewer script. -/
def Viewer.set (slides : List JSString) (i : Int) (v : Viewer) : Viewer :=
  let idx : Int := max 0 (min i ((slides.length : Int) - 1))
  let st := if idx = (slides.length : Int) - 1 then js "completed" else js "incomplete"
  { idx := idx
    src := slideAt slides idx
    counter := intToString (idx + 1) ++ js "/" ++ intToString slides.length
    prevDisabled := decide (idx = 0)
    nextDisabled := decide (idx = (slides.length : Int) - 1)
    reported := v.reported ++
      [(js "cmi.core.lesson_location", intToString idx), (js "cmi.core.lesson_status", st)] }

/-- A click on one of the two buttons. -/
inductive Move where
  | next
  | previous
  deriving DecidableEq

/-- The handlers `onclick="set(idx+1)"` and `onclick="set(idx-1)"`. -/
def Viewer.click (slides : List JSString) (v : Viewer) : Move → Viewer
  | .next => Viewer.set slides (v.idx + 1) v
  | .previous => Viewer.set slides (v.idx - 1) v

/-- The `load` listener (`set(0)`) followed by a sequence of clicks. -/
def Viewer.run (slides : List JSString) (moves : List Move) : Viewer :=
  moves.foldl (Viewer.click slides) (Viewer.set slides 0 Viewer.initial)

/-- The value passed by the last call `LMSSetValue(key, _)`, if there was one. -/
def lastReported (key : JSString) (calls : List (JSString × JSString)) : Option JSString :=
  (calls.reverse.find? (fun kv => kv.1 = key)).map Prod.snd


/-! ## Vocabulary of the properties -/

/-- The secret check of lines 58-60 lets the request through. -/
def PassesSecretCheck (w : World) (req : Request) : Prop :=
  ¬ (WORKER_SECRET w.secretEnv ≠ [] ∧ norm req.secretHeader ≠ WORKER_SECRET w.secretEnv)

instance (w : World) (req : Request) : Decidable (PassesSecretCheck w req) := by
  unfold PassesSecretCheck; infer_instance

/-- The run gets as far as starting stage 1: the request passes the secret check, the job
directory is created, the body parses and carries a file that is written without error. -/
def ReachesStage1 (w : World) (req : Request) : Prop :=
  PassesSecretCheck w req ∧ w.ensureTmpDir = none ∧ w.parseError = none ∧
    req.file.isSome = true ∧ w.writeError = none

instance (w : World) (req : Request) : Decidable (ReachesStage1 w req) := by
  unfold ReachesStage1; infer_instance

/-- The run gets as far as stage 1 and stage 1 exits successfully: the request passes the
secret check, the job directory is created, the body parses and carries a file that is written
without error, and the `soffice` command succeeds. -/
def Stage1Succeeds (w : World) (req : Request) : Prop :=
  PassesSecretCheck w req ∧ w.ensureTmpDir = none ∧ w.parseError = none ∧
    req.file.isSome = true ∧ w.writeError = none ∧ w.stage1 = none

instance (w : World) (req : Request) : Decidable (Stage1Succeeds w req) := by
  unfold Stage1Succeeds; infer_instance

/-- The run gets as far as sequencing the slides: stage 1 succeeds, the slides directory is
created, the `pdftoppm` command succeeds and the slides directory is listed. -/
def ReachesSequencing (w : World) (req : Request) : Prop :=
  Stage1Succeeds w req ∧ w.ensureSlidesDir = none ∧ w.stage2 = none ∧ w.readdirError = none

instance (w : World) (req : Request) : Decidable (ReachesSequencing w req) := by
  unfold ReachesSequencing; infer_instance

/-- The run when the handler starts: nothing sent, nothing created. -/
def runStart (w : World) : Run :=
  { status := none, body := [], headers := [], archive := [], commands := [], dirs := w.dirs }

/-- The run once the job directory has been created. -/
def runWithTmpDir (w : World) : Run :=
  { runStart w with dirs := ensureDir (tmpDirOf w) w.dirs }

/-- The run once stage 1 has been started. -/
def runAfterStage1 (w : World) (req : Request) : Run :=
  { runWithTmpDir w with commands := [stage1Command w req] }

/-- The run once the slides directory has been created and stage 2 has been started. -/
def runAfterStage2 (w : World) (req : Request) : Run :=
  { runAfterStage1 w req with
    commands := [stage1Command w req, stage2Command w req]
    dirs := ensureDir (slidesDirOf w) (ensureDir (tmpDirOf w) w.dirs) }

/-- The values of the `href` attribute of the `file` elements of a document, in order: at each
`<file href="`, the text up to the next double quote. -/
def fileHrefs : JSString → List JSString
  | [] => []
  | c :: r =>
    if c = 60 ∧ (js "file href=\"").isPrefixOf r = true then
      (r.drop 11).takeWhile (fun x => x != 34) :: fileHrefs r
    else fileHrefs r

/-- No `<` of the text is directly followed by `f`, and the text does not end in `<`: such a
text opens no `file` element, whatever follows it. -/
def noFileTag : JSString → Bool
  | [] => true
  | [c] => c != 60
  | c :: d :: r => (c != 60 || d != 102) && noFileTag (d :: r)

/-- The message of the error with which `exec` rejects when the command exits with a code
other than 0, as Node builds it: `Command failed: `, the command line, a line break and the
standard error output of the command. -/
def commandFailed (cmd stderr : JSString) : JSString :=
  js "Command failed: " ++ cmd ++ js "\n" ++ stderr

/-- A world in which every step of a conversion succeeds: the secret `s3cret` is configured and
the rasteriser has left three slides, listed out of order. -/
def sampleWorld : World :=
  { secretEnv := some (js "s3cret")
    compare := collatorCompare
    dirs := [js "/tmp"]
    jobId := js "V1StGXR8_Z5jdHi6B-myT"
    ensureTmpDir := none
    parseError := none
    writeError := none
    stage1 := none
    pdfProduced := true
    ensureSlidesDir := none
    stage2 := none
    readdirError := none
    listing := [js "slide-2.png", js "slide-10.png", js "slide-1.png"]
    endAfterListen := true
    removeFails := false }

/-- A request with the right secret, the title `Demo` and the upload `deck.pptx`. -/
def sampleRequest : Request :=
  { secretHeader := some (js "s3cret")
    fields := [(js "title", js "Demo")]
    file := some (js "deck.pptx") }

/-- The sample world, except that stage 1 fails: `soffice` exits with code 1 after writing
`Error: source file could not be loaded` to its standard error output. -/
def failingStage1World : World :=
  { sampleWorld with
    stage1 := some (commandFailed (stage1Command sampleWorld sampleRequest)
      (js "Error: source file could not be loaded"))
    pdfProduced := false
    listing := [] }

/-- The sample world, except that stage 1 exits successfully without leaving a PDF, so that
`pdftoppm` cannot open its input and exits with code 1. -/
def missingPdfWorld : World :=
  { sampleWorld with
    pdfProduced := false
    stage2 := some (commandFailed (stage2Command sampleWorld sampleRequest)
      (js "I/O Error: Couldn\x27t open file"))
    listing := [] }

/-- The sample world, except that the rasteriser leaves no image behind. -/
def noSlidesWorld : World :=
  { sampleWorld with listing := [js "notes.txt"] }

/-- The sample request, presenting the configured secret followed by a no-break space. -/
def paddedSecretRequest : Request :=
  { sampleRequest with secretHeader := some (js "s3cret" ++ [160]) }

/-- The sample request, presenting another secret. -/
def wrongSecretRequest : Request :=
  { sampleRequest with secretHeader := some (js "guess") }

/-- The sample world, except that no worker secret is configured. -/
def openWorld : World :=
  { sampleWorld with secretEnv := none }

/-! ## Escaping of the title (C2) -/

theorem js_amp : js "&amp;" = [38, 97, 109, 112, 59] := by decide
theorem js_lt : js "&lt;" = [38, 108, 116, 59] := by decide
theorem js_gt : js "&gt;" = [38, 103, 116, 59] := by decide
theorem js_apos : js "&#39;" = [38, 35, 51, 57, 59] := by decide
theorem js_quot : js "&quot;" = [38, 113, 117, 111, 116, 59] := by decide

theorem escapeHtml_nil : escapeHtml [] = [] := rfl

theorem escapeHtml_cons (c : Nat) (s : JSString) :
    escapeHtml (c :: s) = escapeUnit c ++ escapeHtml s := by
  simp [escapeHtml]

/-- The six shapes of `escapeUnit c`. -/
theorem escapeUnit_cases (c : Nat) :
    (c = 38 ∧ escapeUnit c = [38, 97, 109, 112, 59]) ∨
    (c = 60 ∧ escapeUnit c = [38, 108, 116, 59]) ∨
    (c = 62 ∧ escapeUnit c = [38, 103, 116, 59]) ∨
    (c = 39 ∧ escapeUnit c = [38, 35, 51, 57, 59]) ∨
    (c = 34 ∧ escapeUnit c = [38, 113, 117, 111, 116, 59]) ∨
    ((c ≠ 38 ∧ c ≠ 60 ∧ c ≠ 62 ∧ c ≠ 39 ∧ c ≠ 34) ∧ escapeUnit c = [c]) := by
  unfold escapeUnit
  by_cases h1 : c = 38
  · left; subst h1; exact ⟨rfl, by decide⟩
  by_cases h2 : c = 60
  · right; left; subst h2; exact ⟨rfl, by decide⟩
  by_cases h3 : c = 62
  · right; right; left; subst h3; exact ⟨rfl, by decide⟩
  by_cases h4 : c = 39
  · right; right; right; left; subst h4; exact ⟨rfl, by decide⟩
  by_cases h5 : c = 34
  · right; right; right; right; left; subst h5; exact ⟨rfl, by decide⟩
  · right; right; right; right; right
    exact ⟨⟨h1, h2, h3, h4, h5⟩, by simp [h1, h2, h3, h4, h5]⟩

/-- No markup delimiter or quote survives `escapeUnit`. -/
theorem escapeUnit_clean (c x : Nat) (hx : x ∈ escapeUnit c) :
    x ≠ 60 ∧ x ≠ 62 ∧ x ≠ 34 ∧ x ≠ 39 := by
  rcases escapeUnit_cases c with h | h | h | h | h | h <;>
    (rw [h.2] at hx; simp at hx; omega)

theorem escapeHtml_clean (s : JSString) :
    ∀ x ∈ escapeHtml s, x ≠ 60 ∧ x ≠ 62 ∧ x ≠ 34 ∧ x ≠ 39 := by
  induction s with
  | nil => intro x hx; simp [escapeHtml] at hx
  | cons c s ih =>
    intro x hx
    rw [escapeHtml_cons, List.mem_append] at hx
    rcases hx with hx | hx
    · exact escapeUnit_clean c x hx
    · exact ih x hx

theorem ampersands_append (a b : JSString) (ha : AmpersandsStartEntities a)
    (hb : AmpersandsStartEntities b) : AmpersandsStartEntities (a ++ b) := by
  intro i hi
  by_cases hlt : i < a.length
  · have h1 : a.get? i = some 38 := by
      rw [← hi]; simp [List.getElem?_append_left hlt]
    obtain ⟨e, he, hpre⟩ := ha i h1
    refine ⟨e, he, ?_⟩
    rw [List.drop_append_of_le_length (Nat.le_of_lt hlt)]
    exact hpre.trans (List.prefix_append _ _)
  · have hge : a.length ≤ i := Nat.le_of_not_lt hlt
    have h1 : b.get? (i - a.length) = some 38 := by
      rw [← hi]; simp [List.getElem?_append_right hge]
    obtain ⟨e, he, hpre⟩ := hb _ h1
    refine ⟨e, he, ?_⟩
    have : (a ++ b).drop i = b.drop (i - a.length) := by
      rw [List.drop_append_eq_append_drop, List.drop_eq_nil_of_le hge]; rfl
    rw [this]; exact hpre

theorem ampersands_escapeUnit (c : Nat) : AmpersandsStartEntities (escapeUnit c) := by
  intro i hi
  rcases escapeUnit_cases c with h | h | h | h | h | h
  all_goals rw [h.2] at hi ⊢
  · rcases i with _ | _ | _ | _ | _ | i <;> simp at hi
    exact ⟨js "&amp;", by simp [entities], by rw [js_amp]; simp⟩
  · rcases i with _ | _ | _ | _ | i <;> simp at hi
    exact ⟨js "&lt;", by simp [entities], by rw [js_lt]; simp⟩
  · rcases i with _ | _ | _ | _ | i <;> simp at hi
    exact ⟨js "&gt;", by simp [entities], by rw [js_gt]; simp⟩
  · rcases i with _ | _ | _ | _ | _ | i <;> simp at hi
    exact ⟨js "&#39;", by simp [entities], by rw [js_apos]; simp⟩
  · rcases i with _ | _ | _ | _ | _ | _ | i <;> simp at hi
    exact ⟨js "&quot;", by simp [entities], by rw [js_quot]; simp⟩
  · rcases i with _ | i <;> simp at hi
    exact absurd hi h.1.1

theorem ampersands_escapeHtml (s : JSString) : AmpersandsStartEntities (escapeHtml s) := by
  induction s with
  | nil => intro i hi; simp [escapeHtml] at hi
  | cons c s ih =>
    rw [escapeHtml_cons]
    exact ampersands_append _ _ (ampersands_escapeUnit c) ih

theorem decodeEntities_escapeUnit (c : Nat) (r : JSString) :
    decodeEntities (escapeUnit c ++ r) = c :: decodeEntities r := by
  unfold decodeEntities
  rcases escapeUnit_cases c with h | h | h | h | h | h
  all_goals rw [h.2]
  · rw [h.1]; simp [decodeEntitiesAux, js_amp]
  · rw [h.1]; simp [decodeEntitiesAux, js_amp, js_lt]
  · rw [h.1]; simp [decodeEntitiesAux, js_amp, js_lt, js_gt]
  · rw [h.1]; simp [decodeEntitiesAux, js_amp, js_lt, js_gt, js_apos]
  · rw [h.1]; simp [decodeEntitiesAux, js_amp, js_lt, js_gt, js_apos, js_quot]
  · obtain ⟨h1, -⟩ := h.1
    simp [decodeEntitiesAux, js_amp, js_lt, js_gt, js_apos, js_quot, Ne.symm h1]

theorem decodeEntities_escapeHtml (s : JSString) : decodeEntities (escapeHtml s) = s := by
  induction s with
  | nil => simp [escapeHtml, decodeEntities, decodeEntitiesAux]
  | cons c s ih => rw [escapeHtml_cons, decodeEntities_escapeUnit, ih]

/-- C2. For every title `T` (of length at most 200 or not) and every slide list, the manifest
contains `<title>escapeXml(T)</title>` and the viewer contains `<title>escapeHtml(T)</title>`;
the escaped title has no `<`, `>`, `"` or `'`, each of its `&` starts one of the five entities
`&amp; &lt; &gt; &#39; &quot;`, and decoding these entities gives back `T`. -/
theorem title_escaped_round_trip (T : JSString) (files slides : List JSString) :
    (∃ pre post,
      renderManifest T files = pre ++ (js "<title>" ++ escapeXml T ++ js "</title>") ++ post) ∧
    (∃ pre post,
      renderIndexHtml T slides = pre ++ (js "<title>" ++ escapeHtml T ++ js "</title>") ++ post) ∧
    escapeXml T = escapeHtml T ∧
    (∀ x ∈ escapeHtml T, x ≠ 60 ∧ x ≠ 62 ∧ x ≠ 34 ∧ x ≠ 39) ∧
    (∀ i, (escapeHtml T).get? i = some 38 → ∃ e ∈ entities, e <+: (escapeHtml T).drop i) ∧
    decodeEntities (escapeHtml T) = T := by
  refine ⟨⟨text manifestHead, text manifestMiddle ++ js "      " ++
      js "<file href=\"index.html\"/>" ++ (files.map fileElement).flatten ++ text manifestTail,
      ?_⟩,
    ⟨text indexHtmlHead, text indexHtmlStyleScript ++ jsonStringify slides ++ text indexHtmlTail,
      ?_⟩, rfl, escapeHtml_clean T, ampersands_escapeHtml T, decodeEntities_escapeHtml T⟩
  · simp only [renderManifest, List.append_assoc]
  · simp only [renderIndexHtml, List.append_assoc]

/-! ## Decimal numerals -/

theorem digitChar_toNat (d : Nat) (h : d < 10) : (Nat.digitChar d).toNat = 48 + d := by
  interval_cases d <;> rfl

theorem toDigitsCore_map_toNat (fuel n : Nat) (ds : List Char) :
    (Nat.toDigitsCore 10 fuel n ds).map Char.toNat = decimalAux fuel n (ds.map Char.toNat) := by
  induction fuel generalizing n ds with
  | zero => simp [Nat.toDigitsCore, decimalAux]
  | succ fuel ih =>
    have hd : (Nat.digitChar (n % 10)).toNat = 48 + n % 10 :=
      digitChar_toNat _ (Nat.mod_lt _ (by decide))
    unfold Nat.toDigitsCore decimalAux
    by_cases h : n < 10
    · have h0 : n / 10 = 0 := by omega
      have hm : n % 10 = n := by omega
      rw [hm] at hd
      simp [h, h0, hd, hm]
    · have h0 : ¬ n / 10 = 0 := by omega
      simp only [h, h0, if_false]
      rw [ih]
      simp [hd]

/-- The numeral of the model is the decimal numeral of the standard library. -/
theorem decimal_eq_repr (n : Nat) : decimal n = js (Nat.repr n) := by
  have h := toDigitsCore_map_toNat (n + 1) n []
  simp only [List.map_nil] at h
  unfold decimal js Nat.repr Nat.toDigits
  exact h.symm


/-! ## Slide sequencing (C4) -/

theorem slideName_eq (n : Nat) :
    slideName n = js "slide-" ++ js (Nat.repr n) ++ js ".png" := by
  unfold slideName
  rw [decimal_eq_repr]

theorem lowerUnit_eq_iff (c k : Nat) (hk : k < 65 ∨ 122 < k ∨ (97 ≤ k ∧ k ≤ 122)) :
    lowerUnit c = k ↔ c = k ∨ (65 ≤ c ∧ c ≤ 90 ∧ c + 32 = k) := by
  unfold lowerUnit
  split_ifs with h <;> omega

/-- The test of line 102 is the test on the last four code units. -/
theorem endsWith_png_eq (n : JSString) :
    endsWith (toLowerCase n) (js ".png") = hasPngExtension n := by
  have hpng : (js ".png").reverse = [103, 110, 112, 46] := by decide
  unfold endsWith hasPngExtension toLowerCase
  rw [List.isSuffixOf, hpng, ← List.map_reverse]
  rcases n.reverse with _ | ⟨g, _ | ⟨m, _ | ⟨p, _ | ⟨dot, rest⟩⟩⟩⟩
  · rfl
  · simp [List.isPrefixOf]
  · simp [List.isPrefixOf]
  · simp [List.isPrefixOf]
  · have h1 := lowerUnit_eq_iff g 103 (by omega)
    have h2 := lowerUnit_eq_iff m 110 (by omega)
    have h3 := lowerUnit_eq_iff p 112 (by omega)
    have h4 := lowerUnit_eq_iff dot 46 (by omega)
    rw [Bool.eq_iff_iff]
    simp only [List.map_cons, List.isPrefixOf, Bool.and_eq_true, beq_iff_eq, Bool.and_true,
      Bool.or_eq_true, decide_eq_true_eq]
    constructor
    · rintro ⟨e1, e2, e3, e4⟩
      have a1 := h1.1 e1.symm
      have a2 := h2.1 e2.symm
      have a3 := h3.1 e3.symm
      have a4 := h4.1 e4.symm
      omega
    · rintro ⟨⟨⟨e4, e3⟩, e2⟩, e1⟩
      have a1 := h1.2 (by omega)
      have a2 := h2.2 (by omega)
      have a3 := h3.2 (by omega)
      have a4 := h4.2 (by omega)
      exact ⟨a1.symm, a2.symm, a3.symm, a4.symm⟩

theorem filter_png_eq (listing : List JSString) :
    listing.filter (fun n => endsWith (toLowerCase n) (js ".png")) =
      listing.filter hasPngExtension := by
  congr 1
  funext n
  exact endsWith_png_eq n

theorem hasPngExtension_iff (n : JSString) :
    hasPngExtension n = true ↔
      ∃ stem a b c, n = stem ++ [46, a, b, c] ∧ (a = 112 ∨ a = 80) ∧ (b = 110 ∨ b = 78) ∧
        (c = 103 ∨ c = 71) := by
  constructor
  · intro h
    unfold hasPngExtension at h
    have hn : n = n.reverse.reverse := (List.reverse_reverse n).symm
    rcases hr : n.reverse with _ | ⟨g, _ | ⟨m, _ | ⟨p, _ | ⟨dot, rest⟩⟩⟩⟩
    · rw [hr] at h; simp at h
    · rw [hr] at h; simp at h
    · rw [hr] at h; simp at h
    · rw [hr] at h; simp at h
    · rw [hr] at h hn
      simp only [Bool.and_eq_true, Bool.or_eq_true, decide_eq_true_eq] at h
      obtain ⟨⟨⟨h4, h3⟩, h2⟩, h1⟩ := h
      refine ⟨rest.reverse, p, m, g, ?_, h3, h2, h1⟩
      rw [hn, ← h4]
      simp
  · rintro ⟨stem, a, b, c, rfl, ha, hb, hc⟩
    rcases ha with rfl | rfl <;> rcases hb with rfl | rfl <;> rcases hc with rfl | rfl <;>
      simp [hasPngExtension]

theorem slideName_is_png (n : Nat) : endsWith (toLowerCase (slideName n)) (js ".png") = true := by
  have h : toLowerCase (js ".png") = js ".png" := by decide
  unfold endsWith slideName
  rw [show toLowerCase (js "slide-" ++ decimal n ++ js ".png") =
    toLowerCase (js "slide-" ++ decimal n) ++ toLowerCase (js ".png") from by
      simp [toLowerCase], h, List.isSuffixOf_iff_suffix]
  exact List.suffix_append _ _

theorem filter_slideNames (ns : List Nat) :
    (ns.map slideName).filter (fun n => endsWith (toLowerCase n) (js ".png")) =
      ns.map slideName := by
  rw [List.filter_eq_self]
  intro a ha
  obtain ⟨n, -, rfl⟩ := List.mem_map.1 ha
  exact slideName_is_png n

/-- With a comparator that orders the names `slide-<n>.png` by `n`, sequencing such names is
sorting the numbers. -/
theorem sequenceSlides_slideNames (compare : JSString → JSString → Int)
    (hnum : ∀ m n : Nat, compare (slideName m) (slideName n) ≤ 0 ↔ m ≤ n) (ns : List Nat) :
    sequenceSlides compare (ns.map slideName) =
      (ns.insertionSort (fun a b => a ≤ b)).map slideName := by
  unfold sequenceSlides arraySort
  rw [filter_slideNames]
  exact (List.map_insertionSort (r := fun a b : Nat => a ≤ b)
    (s := fun a b : JSString => compare a b ≤ 0) slideName ns
    (fun a _ b _ => (hnum a b).symm)).symm

theorem keyLe_refl (x : List (Nat × Nat)) : keyLe x x = true := by
  induction x with
  | nil => rfl
  | cons a x ih => simp [keyLe, ih]

theorem keyLe_total (x y : List (Nat × Nat)) : keyLe x y = true ∨ keyLe y x = true := by
  induction x generalizing y with
  | nil => left; rfl
  | cons a x ih =>
    cases y with
    | nil => right; rfl
    | cons b y =>
      obtain ⟨a1, a2⟩ := a
      obtain ⟨b1, b2⟩ := b
      by_cases hab : (a1, a2) = (b1, b2)
      · simp only [keyLe, hab, if_true]
        exact ih y
      · have hba : ¬ (b1, b2) = (a1, a2) := fun h => hab h.symm
        simp only [keyLe, hab, hba, if_false]
        simp only [Prod.mk.injEq] at hab
        simp only [Bool.or_eq_true, Bool.and_eq_true, decide_eq_true_eq]
        omega

theorem keyLe_trans (x y z : List (Nat × Nat)) (hxy : keyLe x y = true)
    (hyz : keyLe y z = true) : keyLe x z = true := by
  induction x generalizing y z with
  | nil => rfl
  | cons a x ih =>
    cases y with
    | nil => simp [keyLe] at hxy
    | cons b y =>
      cases z with
      | nil => simp [keyLe] at hyz
      | cons c z =>
        obtain ⟨a1, a2⟩ := a
        obtain ⟨b1, b2⟩ := b
        obtain ⟨c1, c2⟩ := c
        simp only [keyLe, Prod.mk.injEq] at hxy hyz ⊢
        by_cases hab : a1 = b1 ∧ a2 = b2
        · obtain ⟨rfl, rfl⟩ := hab
          simp only [and_self, if_true] at hxy
          by_cases hbc : a1 = c1 ∧ a2 = c2
          · simp only [hbc, and_self, if_true] at hyz ⊢
            exact ih y z hxy hyz
          · simp only [hbc, if_false] at hyz ⊢
            exact hyz
        · simp only [hab, if_false] at hxy
          by_cases hbc : b1 = c1 ∧ b2 = c2
          · obtain ⟨rfl, rfl⟩ := hbc
            simp only [hab, if_false]
            exact hxy
          · simp only [hbc, if_false] at hyz
            simp only [Bool.or_eq_true, Bool.and_eq_true, decide_eq_true_eq] at hxy hyz
            have hac : ¬ (a1 = c1 ∧ a2 = c2) := by omega
            simp only [hac, if_false, Bool.or_eq_true, Bool.and_eq_true, decide_eq_true_eq]
            omega

theorem keyLe_append_left (p x y : List (Nat × Nat)) : keyLe (p ++ x) (p ++ y) = keyLe x y := by
  induction p with
  | nil => rfl
  | cons a p ih => simp [keyLe, ih]

theorem collatorCompare_le_iff (a b : JSString) :
    collatorCompare a b ≤ 0 ↔ keyLe (collationKey a) (collationKey b) = true := by
  unfold collatorCompare
  by_cases h1 : keyLe (collationKey a) (collationKey b) = true
  · by_cases h2 : keyLe (collationKey b) (collationKey a) = true <;> simp [h1, h2]
  · simp [h1]

theorem collatorCompare_total (a b : JSString) :
    collatorCompare a b ≤ 0 ∨ collatorCompare b a ≤ 0 := by
  rw [collatorCompare_le_iff, collatorCompare_le_iff]
  exact keyLe_total _ _

theorem collatorCompare_trans (a b c : JSString) (hab : collatorCompare a b ≤ 0)
    (hbc : collatorCompare b c ≤ 0) : collatorCompare a c ≤ 0 := by
  rw [collatorCompare_le_iff] at *
  exact keyLe_trans _ _ _ hab hbc

theorem decimalAux_acc (fuel n : Nat) (acc : JSString) :
    decimalAux fuel n acc = decimalAux fuel n [] ++ acc := by
  induction fuel generalizing n acc with
  | zero => simp [decimalAux]
  | succ fuel ih =>
    unfold decimalAux
    by_cases h : n < 10
    · simp [h]
    · simp only [h, if_false]
      rw [ih (n / 10) ((48 + n % 10) :: acc), ih (n / 10) [48 + n % 10]]
      simp

theorem collationElementsAux_decimalAux (fuel n : Nat) (acc : JSString) (h : n < fuel) :
    collationElementsAux none (decimalAux fuel n acc) = collationElementsAux (some n) acc := by
  induction fuel generalizing n acc with
  | zero => omega
  | succ fuel ih =>
    unfold decimalAux
    by_cases h10 : n < 10
    · have hd : isDigit (48 + n) = true := by simp [isDigit]; omega
      simp [h10, collationElementsAux, hd]
    · simp only [h10, if_false]
      rw [ih (n / 10) _ (by omega)]
      have hd : isDigit (48 + n % 10) = true := by simp [isDigit]; omega
      have hv : 10 * (n / 10) + n % 10 = n := by omega
      simp [collationElementsAux, hd, hv]

theorem collationElementsAux_none_cons (c : Nat) (r : JSString) :
    collationElementsAux none (c :: r) =
      if isDigit c then collationElementsAux (some (c - 48)) r
      else (primaryRank c, 0, caseRank c) :: collationElementsAux none r := rfl

theorem collationElementsAux_some_cons (v c : Nat) (r : JSString) :
    collationElementsAux (some v) (c :: r) =
      if isDigit c then collationElementsAux (some (10 * v + (c - 48))) r
      else (numberRank, v, 0) :: (primaryRank c, 0, caseRank c) :: collationElementsAux none r :=
  rfl

/-- Reading a text that does not end inside a digit run leaves no run open. -/
theorem collationElementsAux_append (p r : JSString) (hp : p ≠ [])
    (hlast : ∀ c, p.getLast? = some c → isDigit c = false) (st : Option Nat) :
    collationElementsAux st (p ++ r) =
      collationElementsAux st p ++ collationElementsAux none r := by
  induction p generalizing st with
  | nil => exact absurd rfl hp
  | cons c p ih =>
    cases p with
    | nil =>
      have hc : isDigit c = false := hlast c rfl
      cases st <;> simp [collationElementsAux, hc]
    | cons d p =>
      have hl : ∀ x, (d :: p).getLast? = some x → isDigit x = false := by
        intro x hx
        exact hlast x (by rw [List.getLast?_cons_cons]; exact hx)
      have ih2 := fun st => ih (List.cons_ne_nil d p) hl st
      rw [List.cons_append]
      cases st with
      | none =>
        rw [collationElementsAux_none_cons, collationElementsAux_none_cons]
        by_cases hc : isDigit c = true
        · rw [if_pos hc, if_pos hc]; exact ih2 _
        · rw [if_neg hc, if_neg hc, ih2 none]; rfl
      | some v =>
        rw [collationElementsAux_some_cons, collationElementsAux_some_cons]
        by_cases hc : isDigit c = true
        · rw [if_pos hc, if_pos hc]; exact ih2 _
        · rw [if_neg hc, if_neg hc, ih2 none]; rfl

theorem collationElementsAux_some (v : Nat) (s : JSString)
    (hs : ∀ c, s.head? = some c → isDigit c = false) :
    collationElementsAux (some v) s = (numberRank, v, 0) :: collationElementsAux none s := by
  cases s with
  | nil => rfl
  | cons c r =>
    have hc : isDigit c = false := hs c rfl
    simp [collationElementsAux, hc]

/-- Collation elements of a text in which the numeral of `n` stands between a part that does
not end in a digit and a part that does not start with one. -/
theorem collationElements_numeral (p s : JSString) (n : Nat)
    (hp : ∀ c, p.getLast? = some c → isDigit c = false)
    (hs : ∀ c, s.head? = some c → isDigit c = false) :
    collationElements (p ++ decimal n ++ s) =
      collationElements p ++ (numberRank, n, 0) :: collationElements s := by
  have hnum : collationElementsAux none (decimal n ++ s) =
      (numberRank, n, 0) :: collationElementsAux none s := by
    unfold decimal
    rw [← decimalAux_acc, collationElementsAux_decimalAux _ _ _ (Nat.lt_succ_self n)]
    exact collationElementsAux_some n s hs
  unfold collationElements
  rw [List.append_assoc]
  by_cases hnil : p = []
  · subst hnil
    simpa [collationElementsAux] using hnum
  · rw [collationElementsAux_append p _ hnil hp none, hnum]

theorem collationKey_numeral (p s : JSString) (n : Nat)
    (hp : ∀ c, p.getLast? = some c → isDigit c = false)
    (hs : ∀ c, s.head? = some c → isDigit c = false) :
    collationKey (p ++ decimal n ++ s) =
      (collationElements p).map (fun e => (e.1, e.2.1)) ++
        (numberRank, n) :: ((collationElements s).map (fun e => (e.1, e.2.1)) ++
          (0, 0) :: ((collationElements p).map (fun e => (e.2.2, 0)) ++
            (0, 0) :: (collationElements s).map (fun e => (e.2.2, 0)))) := by
  unfold collationKey
  rw [collationElements_numeral p s n hp hs]
  simp

/-- The reference comparator compares a digit run as a number. -/
theorem collatorCompare_numeral (p s : JSString) (a b : Nat)
    (hp : ∀ c, p.getLast? = some c → isDigit c = false)
    (hs : ∀ c, s.head? = some c → isDigit c = false) :
    collatorCompare (p ++ decimal a ++ s) (p ++ decimal b ++ s) ≤ 0 ↔ a ≤ b := by
  rw [collatorCompare_le_iff, collationKey_numeral p s a hp hs, collationKey_numeral p s b hp hs,
    keyLe_append_left]
  by_cases h : a = b
  · subst h; simp [keyLe_refl]
  · simp [keyLe, h]
    omega

theorem collatorCompare_slideName (m n : Nat) :
    collatorCompare (slideName m) (slideName n) ≤ 0 ↔ m ≤ n := by
  have hp : ∀ c, (js "slide-").getLast? = some c → isDigit c = false := by
    intro c hc
    have h45 : (js "slide-").getLast? = some 45 := by decide
    rw [h45] at hc
    cases hc
    decide
  have hs : ∀ c, (js ".png").head? = some c → isDigit c = false := by
    intro c hc
    have h46 : (js ".png").head? = some 46 := by decide
    rw [h46] at hc
    cases hc
    decide
  exact collatorCompare_numeral (js "slide-") (js ".png") m n hp hs

/-- C4. For every directory listing and whatever the comparator, sequencing returns a
permutation of exactly the entries whose name ends in `.png` in any mix of upper and lower case
(a dot, then `p` or `P`, `n` or `N`, `g` or `G`). With the reference collator the result is
sorted; that collator compares an embedded digit run as a number (two names that differ only in
the numeral standing between a part not ending in a digit and a part not starting with one are
ordered as their numbers are); names `slide-<n>.png` with distinct `n`, written in decimal
without padding, come out in increasing `n`; the listing `slide-2.png, slide-10.png,
slide-1.png` yields `slide-1.png, slide-2.png, slide-10.png`; and from a listing with other
entries only the `.png` names are kept, upper-case extensions included. -/
theorem slide_sequencing :
    (∀ (compare : JSString → JSString → Int) (listing : List JSString),
      (sequenceSlides compare listing).Perm (listing.filter hasPngExtension)) ∧
    (∀ n : JSString, hasPngExtension n = true ↔
      ∃ stem a b c, n = stem ++ [46, a, b, c] ∧ (a = 112 ∨ a = 80) ∧ (b = 110 ∨ b = 78) ∧
        (c = 103 ∨ c = 71)) ∧
    (∀ listing, (sequenceSlides collatorCompare listing).Sorted
      (fun a b => collatorCompare a b ≤ 0)) ∧
    (∀ (p s : JSString) (a b : Nat),
      (∀ c, p.getLast? = some c → ¬ (48 ≤ c ∧ c ≤ 57)) →
      (∀ c, s.head? = some c → ¬ (48 ≤ c ∧ c ≤ 57)) →
      (collatorCompare (p ++ js (Nat.repr a) ++ s) (p ++ js (Nat.repr b) ++ s) ≤ 0 ↔ a ≤ b)) ∧
    (∀ ns : List Nat, ns.Nodup → ∃ ms : List Nat, ms.Perm ns ∧ ms.Sorted (fun a b => a < b) ∧
      sequenceSlides collatorCompare
          (ns.map (fun n => js "slide-" ++ js (Nat.repr n) ++ js ".png")) =
        ms.map (fun n => js "slide-" ++ js (Nat.repr n) ++ js ".png")) ∧
    sequenceSlides collatorCompare [js "slide-2.png", js "slide-10.png", js "slide-1.png"] =
      [js "slide-1.png", js "slide-2.png", js "slide-10.png"] ∧
    sequenceSlides collatorCompare
        [js "slide-2.png", js "notes.txt", js "slide-10.PNG", js "png", js "slide-1.Png",
          js "deck.pdf"] =
      [js "slide-1.Png", js "slide-2.png", js "slide-10.PNG"] := by
  haveI : IsTotal JSString (fun a b => collatorCompare a b ≤ 0) := ⟨collatorCompare_total⟩
  haveI : IsTrans JSString (fun a b => collatorCompare a b ≤ 0) := ⟨collatorCompare_trans⟩
  have hname : (fun n => js "slide-" ++ js (Nat.repr n) ++ js ".png") = slideName := by
    funext n
    exact (slideName_eq n).symm
  refine ⟨?_, hasPngExtension_iff, fun listing => List.sorted_insertionSort _ _, ?_, ?_,
    by decide, by decide⟩
  · intro compare listing
    unfold sequenceSlides arraySort
    rw [filter_png_eq]
    exact List.perm_insertionSort _ _
  · intro p s a b hp hs
    rw [← decimal_eq_repr, ← decimal_eq_repr]
    refine collatorCompare_numeral p s a b ?_ ?_
    · intro c hc
      have := hp c hc
      simp only [isDigit, Bool.and_eq_false_imp, decide_eq_true_eq, decide_eq_false_iff_not]
      omega
    · intro c hc
      have := hs c hc
      simp only [isDigit, Bool.and_eq_false_imp, decide_eq_true_eq, decide_eq_false_iff_not]
      omega
  · intro ns hns
    rw [hname]
    refine ⟨ns.insertionSort (fun a b => a ≤ b), List.perm_insertionSort _ _, ?_,
      sequenceSlides_slideNames collatorCompare collatorCompare_slideName ns⟩
    have hs : (ns.insertionSort (fun a b => a ≤ b)).Sorted (fun a b => a ≤ b) :=
      List.sorted_insertionSort _ _
    exact hs.lt_of_le ((List.perm_insertionSort _ _).nodup_iff.2 hns)

/-! ## Navigation in the viewer (C7) -/

theorem status_key_ne_location_key :
    js "cmi.core.lesson_status" ≠ js "cmi.core.lesson_location" := by decide

theorem lastReported_location (calls : List (JSString × JSString)) (a b : JSString) :
    lastReported (js "cmi.core.lesson_location")
      (calls ++ [(js "cmi.core.lesson_location", a), (js "cmi.core.lesson_status", b)]) =
      some a := by
  simp [lastReported, List.find?, status_key_ne_location_key]

theorem lastReported_status (calls : List (JSString × JSString)) (a b : JSString) :
    lastReported (js "cmi.core.lesson_status")
      (calls ++ [(js "cmi.core.lesson_location", a), (js "cmi.core.lesson_status", b)]) =
      some b := by
  simp [lastReported, List.find?]

/-- Every state after the `load` event is the result of a call of `set`. -/
theorem run_is_set (slides : List JSString) (moves : List Move) (i : Int) (v : Viewer) :
    ∃ j u, moves.foldl (Viewer.click slides) (Viewer.set slides i v) = Viewer.set slides j u := by
  induction moves generalizing i v with
  | nil => exact ⟨i, v, rfl⟩
  | cons m ms ih =>
    cases m with
    | next => exact ih _ _
    | previous => exact ih _ _

theorem intToString_natCast (n : Nat) : intToString (n : Int) = js (Nat.repr n) := by
  unfold intToString
  rw [if_neg (by omega), Int.natAbs_ofNat, decimal_eq_repr]

/-- C7. For a viewer with `N ≥ 1` slides and every sequence of clicks on next and previous
after the `load` event: `idx` stays within `0..N-1`; next adds one below `N-1` and changes
nothing at `N-1`, previous subtracts one above `0` and changes nothing at `0`; the previous
button is disabled exactly when `idx = 0` and the next button exactly when `idx = N-1`; the
value last reported for `cmi.core.lesson_location` is the decimal numeral of `idx` and the one
for `cmi.core.lesson_status` is `completed` exactly when `idx = N-1` and `incomplete`
otherwise. -/
theorem viewer_navigation (slides : List JSString) (hN : 1 ≤ slides.length)
    (moves : List Move) :
    0 ≤ (Viewer.run slides moves).idx ∧
    (Viewer.run slides moves).idx ≤ (slides.length : Int) - 1 ∧
    ((Viewer.click slides (Viewer.run slides moves) Move.next).idx =
      if (Viewer.run slides moves).idx = (slides.length : Int) - 1
      then (Viewer.run slides moves).idx else (Viewer.run slides moves).idx + 1) ∧
    ((Viewer.click slides (Viewer.run slides moves) Move.previous).idx =
      if (Viewer.run slides moves).idx = 0
      then (Viewer.run slides moves).idx else (Viewer.run slides moves).idx - 1) ∧
    ((Viewer.run slides moves).prevDisabled = true ↔ (Viewer.run slides moves).idx = 0) ∧
    ((Viewer.run slides moves).nextDisabled = true ↔
      (Viewer.run slides moves).idx = (slides.length : Int) - 1) ∧
    (∃ n : Nat, (Viewer.run slides moves).idx = (n : Int) ∧
      lastReported (js "cmi.core.lesson_location") (Viewer.run slides moves).reported =
        some (js (Nat.repr n))) ∧
    lastReported (js "cmi.core.lesson_status") (Viewer.run slides moves).reported =
      some (if (Viewer.run slides moves).idx = (slides.length : Int) - 1
        then js "completed" else js "incomplete") := by
  obtain ⟨j, u, h⟩ := run_is_set slides moves 0 Viewer.initial
  have hrun : Viewer.run slides moves = Viewer.set slides j u := h
  rw [hrun]
  have hN' : (1 : Int) ≤ (slides.length : Int) := by exact_mod_cast hN
  have h0 : 0 ≤ (Viewer.set slides j u).idx := by
    simp only [Viewer.set]; omega
  have h1 : (Viewer.set slides j u).idx ≤ (slides.length : Int) - 1 := by
    simp only [Viewer.set]; omega
  refine ⟨h0, h1, ?_, ?_, ?_, ?_, ?_, ?_⟩
  · simp only [Viewer.click, Viewer.set] at h0 h1 ⊢
    split_ifs <;> omega
  · simp only [Viewer.click, Viewer.set] at h0 h1 ⊢
    split_ifs <;> omega
  · simp [Viewer.set]
  · simp [Viewer.set]
  · obtain ⟨n, hn⟩ := Int.eq_ofNat_of_zero_le h0
    refine ⟨n, hn, ?_⟩
    rw [← intToString_natCast n, ← hn]
    simp only [Viewer.set]
    exact lastReported_location _ _ _
  · simp only [Viewer.set]
    exact lastReported_status _ _ _

/-- C7 on a deck of three slides. After next, next, next, previous the viewer is at position 1:
`1` and `incomplete` are the values last reported and no button is disabled. After next, next,
next it is at position 2: `2` and `completed` are reported and the next button is disabled.
After previous alone it is still at position 0, with `0` reported and the previous button
disabled. -/
theorem viewer_navigation_witness :
    0 ≤ (Viewer.run [js "slides/slide-1.png", js "slides/slide-2.png", js "slides/slide-3.png"]
      [Move.next, Move.next, Move.next, Move.previous]).idx ∧
    (Viewer.run [js "slides/slide-1.png", js "slides/slide-2.png", js "slides/slide-3.png"]
      [Move.next, Move.next, Move.next, Move.previous]).idx = 1 ∧
    lastReported (js "cmi.core.lesson_location")
      (Viewer.run [js "slides/slide-1.png", js "slides/slide-2.png", js "slides/slide-3.png"]
        [Move.next, Move.next, Move.next, Move.previous]).reported = some (js "1") ∧
    lastReported (js "cmi.core.lesson_status")
      (Viewer.run [js "slides/slide-1.png", js "slides/slide-2.png", js "slides/slide-3.png"]
        [Move.next, Move.next, Move.next, Move.previous]).reported = some (js "incomplete") ∧
    (Viewer.run [js "slides/slide-1.png", js "slides/slide-2.png", js "slides/slide-3.png"]
      [Move.next, Move.next, Move.next, Move.previous]).prevDisabled = false ∧
    (Viewer.run [js "slides/slide-1.png", js "slides/slide-2.png", js "slides/slide-3.png"]
      [Move.next, Move.next, Move.next, Move.previous]).nextDisabled = false ∧
    (Viewer.run [js "slides/slide-1.png", js "slides/slide-2.png", js "slides/slide-3.png"]
      [Move.next, Move.next, Move.next]).idx = 2 ∧
    lastReported (js "cmi.core.lesson_location")
      (Viewer.run [js "slides/slide-1.png", js "slides/slide-2.png", js "slides/slide-3.png"]
        [Move.next, Move.next, Move.next]).reported = some (js "2") ∧
    lastReported (js "cmi.core.lesson_status")
      (Viewer.run [js "slides/slide-1.png", js "slides/slide-2.png", js "slides/slide-3.png"]
        [Move.next, Move.next, Move.next]).reported = some (js "completed") ∧
    (Viewer.run [js "slides/slide-1.png", js "slides/slide-2.png", js "slides/slide-3.png"]
      [Move.next, Move.next, Move.next]).nextDisabled = true ∧
    (Viewer.run [js "slides/slide-1.png", js "slides/slide-2.png", js "slides/slide-3.png"]
      [Move.previous]).idx = 0 ∧
    lastReported (js "cmi.core.lesson_location")
      (Viewer.run [js "slides/slide-1.png", js "slides/slide-2.png", js "slides/slide-3.png"]
        [Move.previous]).reported = some (js "0") ∧
    (Viewer.run [js "slides/slide-1.png", js "slides/slide-2.png", js "slides/slide-3.png"]
      [Move.previous]).prevDisabled = true :=
  ⟨(viewer_navigation
      [js "slides/slide-1.png", js "slides/slide-2.png", js "slides/slide-3.png"]
      (by decide) [Move.next, Move.next, Move.next, Move.previous]).1,
    by decide, by decide, by decide, by decide, by decide, by decide, by decide, by decide,
    by decide, by decide, by decide, by decide⟩

/-! ## The runs of the handler, case by case -/

theorem uploadPathOf_ne_nil (w : World) (req : Request) (h : req.file.isSome = true) :
    uploadPathOf w req ≠ [] := by
  unfold uploadPathOf
  cases hf : req.file with
  | none => simp [hf] at h
  | some f =>
    have h47 : js "/" = [47] := by decide
    simp [h47]

/-- The outcomes of the handler: rejection by the secret check, the eight failures caught by
the `catch` block before sequencing, the body without a file (the promise `parse` never
settles), the empty slide list, and the streamed archive. -/
theorem convert_cases (w : World) (req : Request) :
    (¬ PassesSecretCheck w req ∧
      convert w req = { runStart w with status := some 401, body := js "Unauthorized" }) ∨
    (PassesSecretCheck w req ∧ ∃ e, w.ensureTmpDir = some e ∧
      convert w req = caught e (runStart w)) ∨
    (PassesSecretCheck w req ∧ w.ensureTmpDir = none ∧ ∃ e, w.parseError = some e ∧
      convert w req = caught e (runWithTmpDir w)) ∨
    (PassesSecretCheck w req ∧ w.ensureTmpDir = none ∧ w.parseError = none ∧
      req.file = none ∧ convert w req = runWithTmpDir w) ∨
    (PassesSecretCheck w req ∧ w.ensureTmpDir = none ∧ w.parseError = none ∧
      req.file.isSome = true ∧ ∃ e, w.writeError = some e ∧
      convert w req = caught e (runWithTmpDir w)) ∨
    (PassesSecretCheck w req ∧ w.ensureTmpDir = none ∧ w.parseError = none ∧
      req.file.isSome = true ∧ w.writeError = none ∧ ∃ e, w.stage1 = some e ∧
      convert w req = caught e (runAfterStage1 w req)) ∨
    (Stage1Succeeds w req ∧ ∃ e, w.ensureSlidesDir = some e ∧
      convert w req = caught e (runAfterStage1 w req)) ∨
    (Stage1Succeeds w req ∧ w.ensureSlidesDir = none ∧ ∃ e, w.stage2 = some e ∧
      convert w req = caught e (runAfterStage2 w req)) ∨
    (Stage1Succeeds w req ∧ w.ensureSlidesDir = none ∧ w.stage2 = none ∧
      ∃ e, w.readdirError = some e ∧ convert w req = caught e (runAfterStage2 w req)) ∨
    (ReachesSequencing w req ∧ sequenceSlides w.compare w.listing = [] ∧
      convert w req =
        caught (js "No slides produced. Check input file.") (runAfterStage2 w req)) ∨
    (ReachesSequencing w req ∧ sequenceSlides w.compare w.listing ≠ [] ∧
      convert w req = package w (parseTitle req.fields)
        (sequenceSlides w.compare w.listing) (runAfterStage2 w req)) := by
  by_cases hp : PassesSecretCheck w req
  swap
  · left
    refine ⟨hp, ?_⟩
    unfold PassesSecretCheck at hp
    rw [not_not] at hp
    unfold convert
    simp only [if_pos hp, runStart]
  right
  have hp' := hp
  unfold PassesSecretCheck at hp'
  cases h1 : w.ensureTmpDir with
  | some e =>
    left
    refine ⟨hp, e, rfl, ?_⟩
    unfold convert
    simp only [if_neg hp', h1, runStart]
  | none =>
  right
  cases h2 : w.parseError with
  | some e =>
    left
    refine ⟨hp, rfl, e, rfl, ?_⟩
    unfold convert
    simp only [if_neg hp', h1, h2, parse, runWithTmpDir, runStart]
  | none =>
  right
  cases h3 : req.file with
  | none =>
    left
    refine ⟨hp, rfl, rfl, rfl, ?_⟩
    unfold convert
    simp only [if_neg hp', h1, h2, h3, parse, runWithTmpDir, runStart]
  | some f =>
  right
  have hf : req.file.isSome = true := by simp [h3]
  have hup : uploadPathOf w req ≠ [] := uploadPathOf_ne_nil w req hf
  cases h4 : w.writeError with
  | some e =>
    left
    refine ⟨hp, rfl, rfl, rfl, e, rfl, ?_⟩
    unfold convert
    simp only [if_neg hp', h1, h2, h3, h4, parse, runWithTmpDir, runStart]
  | none =>
  right
  cases h5 : w.stage1 with
  | some e =>
    left
    refine ⟨hp, rfl, rfl, rfl, rfl, e, rfl, ?_⟩
    unfold convert
    simp only [if_neg hp', h1, h2, h3, h4, h5, parse, if_neg hup, runAfterStage1,
      runWithTmpDir, runStart, List.nil_append]
  | none =>
  right
  have hs1 : Stage1Succeeds w req := ⟨hp, h1, h2, hf, h4, h5⟩
  cases h6 : w.ensureSlidesDir with
  | some e =>
    left
    refine ⟨hs1, e, rfl, ?_⟩
    unfold convert
    simp only [if_neg hp', h1, h2, h3, h4, h5, h6, parse, if_neg hup, runAfterStage1,
      runWithTmpDir, runStart, List.nil_append]
  | none =>
  right
  cases h7 : w.stage2 with
  | some e =>
    left
    refine ⟨hs1, rfl, e, rfl, ?_⟩
    unfold convert
    simp only [if_neg hp', h1, h2, h3, h4, h5, h6, h7, parse, if_neg hup, runAfterStage2,
      runAfterStage1, runWithTmpDir, runStart, List.nil_append, List.singleton_append]
  | none =>
  right
  cases h8 : w.readdirError with
  | some e =>
    left
    refine ⟨hs1, rfl, rfl, e, rfl, ?_⟩
    unfold convert
    simp only [if_neg hp', h1, h2, h3, h4, h5, h6, h7, h8, parse, if_neg hup, runAfterStage2,
      runAfterStage1, runWithTmpDir, runStart, List.nil_append, List.singleton_append]
  | none =>
  right
  have hr : ReachesSequencing w req := ⟨hs1, h6, h7, h8⟩
  by_cases h9 : sequenceSlides w.compare w.listing = []
  · left
    refine ⟨hr, h9, ?_⟩
    unfold convert
    simp only [if_neg hp', h1, h2, h3, h4, h5, h6, h7, h8, parse, if_neg hup, if_pos h9,
      runAfterStage2, runAfterStage1, runWithTmpDir, runStart, List.nil_append,
      List.singleton_append]
  · right
    refine ⟨hr, h9, ?_⟩
    unfold convert
    simp only [if_neg hp', h1, h2, h3, h4, h5, h6, h7, h8, parse, if_neg hup, if_neg h9,
      runAfterStage2, runAfterStage1, runWithTmpDir, runStart, List.nil_append,
      List.singleton_append]

theorem convert_of_reaches (w : World) (req : Request) (h : ReachesSequencing w req) :
    convert w req =
      if sequenceSlides w.compare w.listing = [] then
        caught (js "No slides produced. Check input file.") (runAfterStage2 w req)
      else
        package w (parseTitle req.fields) (sequenceSlides w.compare w.listing)
          (runAfterStage2 w req) := by
  obtain ⟨⟨hp, h1, h2, hf, h4, h5⟩, h6, h7, h8⟩ := h
  have hup : uploadPathOf w req ≠ [] := uploadPathOf_ne_nil w req hf
  obtain ⟨f, h3⟩ := Option.isSome_iff_exists.1 hf
  unfold PassesSecretCheck at hp
  unfold convert
  simp only [if_neg hp, h1, h2, h3, h4, h5, h6, h7, h8, parse, if_neg hup,
    runAfterStage2, runAfterStage1, runWithTmpDir, runStart, List.nil_append,
    List.singleton_append]

theorem convert_of_stage1 (w : World) (req : Request) (h : Stage1Succeeds w req) :
    convert w req =
      match w.ensureSlidesDir with
      | some e => caught e (runAfterStage1 w req)
      | none =>
        match w.stage2 with
        | some e => caught e (runAfterStage2 w req)
        | none =>
          match w.readdirError with
          | some e => caught e (runAfterStage2 w req)
          | none =>
            if sequenceSlides w.compare w.listing = [] then
              caught (js "No slides produced. Check input file.") (runAfterStage2 w req)
            else
              package w (parseTitle req.fields) (sequenceSlides w.compare w.listing)
                (runAfterStage2 w req) := by
  obtain ⟨hp, h1, h2, hf, h4, h5⟩ := h
  have hup : uploadPathOf w req ≠ [] := uploadPathOf_ne_nil w req hf
  obtain ⟨f, h3⟩ := Option.isSome_iff_exists.1 hf
  unfold PassesSecretCheck at hp
  unfold convert
  simp only [if_neg hp, h1, h2, h3, h4, h5, parse, if_neg hup,
    runAfterStage2, runAfterStage1, runWithTmpDir, runStart, List.nil_append,
    List.singleton_append]

theorem errorText_no_slides :
    errorText (js "No slides produced. Check input file.") =
      js "No slides produced. Check input file." := by decide

theorem sequenceSlides_eq_nil (compare : JSString → JSString → Int) (listing : List JSString)
    (h : ∀ n ∈ listing, endsWith (toLowerCase n) (js ".png") = false) :
    sequenceSlides compare listing = [] := by
  have hf : listing.filter (fun n => endsWith (toLowerCase n) (js ".png")) = [] := by
    rw [List.filter_eq_nil_iff]
    intro a ha
    simp [h a ha]
  unfold sequenceSlides arraySort
  rw [hf]
  rfl

/-! ## Archive and manifest (C3) -/

theorem manifest_text (T : JSString) (files : List JSString) :
    renderManifest T files =
      js "<manifest identifier=\"MANIFEST-1\" version=\"1.0\"\n  xmlns:adlcp=\"http://www.adlnet.org/xsd/adlcp_rootv1p2\"\n  xmlns:imsmd=\"http://www.imsglobal.org/xsd/imsmd_rootv1p2p1\"\n  xmlns=\"http://www.imsproject.org/xsd/imscp_rootv1p1p2\">\n  <organizations default=\"ORG-1\">\n    <organization identifier=\"ORG-1\">\n      <title>"
      ++ escapeHtml T ++
      js "</title>\n      <item identifier=\"ITEM-1\" identifierref=\"RES-1\" isvisible=\"true\">\n        <title>Slides</title>\n      </item>\n    </organization>\n  </organizations>\n  <resources>\n    <resource identifier=\"RES-1\" type=\"webcontent\" adlcp:scormtype=\"sco\" href=\"index.html\">\n      "
      ++ ((js "index.html" :: files).map (fun f => js "<file href=\"" ++ f ++ js "\"/>")).flatten
      ++ js "\n    </resource>\n  </resources>\n</manifest>" := by
  have hA : text manifestHead ++ js "<title>" =
      js "<manifest identifier=\"MANIFEST-1\" version=\"1.0\"\n  xmlns:adlcp=\"http://www.adlnet.org/xsd/adlcp_rootv1p2\"\n  xmlns:imsmd=\"http://www.imsglobal.org/xsd/imsmd_rootv1p2p1\"\n  xmlns=\"http://www.imsproject.org/xsd/imscp_rootv1p1p2\">\n  <organizations default=\"ORG-1\">\n    <organization identifier=\"ORG-1\">\n      <title>" :=
    rfl
  have hB : js "</title>" ++ (text manifestMiddle ++ js "      ") =
      js "</title>\n      <item identifier=\"ITEM-1\" identifierref=\"RES-1\" isvisible=\"true\">\n        <title>Slides</title>\n      </item>\n    </organization>\n  </organizations>\n  <resources>\n    <resource identifier=\"RES-1\" type=\"webcontent\" adlcp:scormtype=\"sco\" href=\"index.html\">\n      " :=
    rfl
  have hC : text manifestTail =
      js "\n    </resource>\n  </resources>\n</manifest>" :=
    rfl
  have hf : fileElement = fun f => js "<file href=\"" ++ f ++ js "\"/>" := rfl
  have h1 : js "<file href=\"index.html\"/>" =
      js "<file href=\"" ++ js "index.html" ++ js "\"/>" := rfl
  rw [← hA, ← hB, ← hC]
  unfold renderManifest escapeXml
  simp only [hf, h1, List.map_cons, List.flatten_cons, List.append_assoc]

theorem fileHrefs_skip (a b : JSString) (h : ∀ x ∈ a, x ≠ 60) :
    fileHrefs (a ++ b) = fileHrefs b := by
  induction a with
  | nil => rfl
  | cons c a ih =>
    have hc : c ≠ 60 := h c (List.mem_cons_self _ _)
    rw [List.cons_append, fileHrefs, if_neg (fun hh => hc hh.1)]
    exact ih (fun x hx => h x (List.mem_cons_of_mem _ hx))

theorem fileHrefs_noFileTag (a b : JSString) (h : noFileTag a = true) :
    fileHrefs (a ++ b) = fileHrefs b := by
  induction a with
  | nil => rfl
  | cons c a ih =>
    cases a with
    | nil =>
      have hc : c ≠ 60 := by simpa [noFileTag] using h
      rw [List.cons_append, fileHrefs, if_neg (fun hh => hc hh.1)]
      rfl
    | cons d a =>
      simp only [noFileTag, Bool.and_eq_true, Bool.or_eq_true, bne_iff_ne, ne_eq] at h
      have hno : ¬ (c = 60 ∧ (js "file href=\"").isPrefixOf (d :: (a ++ b)) = true) := by
        rintro ⟨hc, hp⟩
        have hd : d ≠ 102 := by
          rcases h.1 with h1 | h1
          · exact absurd hc h1
          · exact h1
        have hpat : js "file href=\"" = 102 :: (js "ile href=\"") := by decide
        rw [hpat] at hp
        simp only [List.isPrefixOf, Bool.and_eq_true, beq_iff_eq] at hp
        exact hd hp.1.symm
      rw [List.cons_append, List.cons_append, fileHrefs, if_neg hno]
      exact ih h.2

theorem fileHrefs_element (f b : JSString) (hf : ∀ x ∈ f, x ≠ 60 ∧ x ≠ 34) :
    fileHrefs (js "<file href=\"" ++ f ++ js "\"/>" ++ b) = f :: fileHrefs b := by
  have hopen : js "<file href=\"" = 60 :: js "file href=\"" := by decide
  have hclose : js "\"/>" = [34, 47, 62] := by decide
  have hlen : (js "file href=\"").length = 11 := by decide
  have hpat : ∀ x ∈ js "file href=\"", x ≠ 60 := by decide
  rw [hopen, hclose]
  simp only [List.cons_append, List.append_assoc]
  rw [fileHrefs, if_pos ⟨rfl, by
    rw [List.isPrefixOf_iff_prefix]; exact List.prefix_append _ _⟩]
  congr 1
  · rw [List.drop_left' hlen]
    have h34 : ∀ x ∈ f, (fun x => x != 34) x = true := by
      intro x hx
      simpa using (hf x hx).2
    rw [List.takeWhile_append_of_pos h34]
    simp
  · rw [fileHrefs_skip _ _ hpat, fileHrefs_skip _ _ (fun x hx => (hf x hx).1)]
    exact fileHrefs_skip [34, 47, 62] b (by decide)

theorem fileHrefs_elements (fs : List JSString) (b : JSString)
    (h : ∀ f ∈ fs, ∀ x ∈ f, x ≠ 60 ∧ x ≠ 34) :
    fileHrefs ((fs.map (fun f => js "<file href=\"" ++ f ++ js "\"/>")).flatten ++ b) =
      fs ++ fileHrefs b := by
  induction fs with
  | nil => rfl
  | cons f fs ih =>
    rw [List.map_cons, List.flatten_cons, List.append_assoc,
      fileHrefs_element f _ (h f (List.mem_cons_self _ _)),
      ih (fun g hg => h g (List.mem_cons_of_mem _ hg))]
    rfl

/-- The `file` elements read back from the manifest are `index.html` and the given paths. -/
theorem fileHrefs_renderManifest (T : JSString) (files : List JSString)
    (h : ∀ f ∈ files, ∀ x ∈ f, x ≠ 60 ∧ x ≠ 34) :
    fileHrefs (renderManifest T files) = js "index.html" :: files := by
  have hA : noFileTag (js "<manifest identifier=\"MANIFEST-1\" version=\"1.0\"\n  xmlns:adlcp=\"http://www.adlnet.org/xsd/adlcp_rootv1p2\"\n  xmlns:imsmd=\"http://www.imsglobal.org/xsd/imsmd_rootv1p2p1\"\n  xmlns=\"http://www.imsproject.org/xsd/imscp_rootv1p1p2\">\n  <organizations default=\"ORG-1\">\n    <organization identifier=\"ORG-1\">\n      <title>") = true := by
    rfl
  have hB : noFileTag (js "</title>\n      <item identifier=\"ITEM-1\" identifierref=\"RES-1\" isvisible=\"true\">\n        <title>Slides</title>\n      </item>\n    </organization>\n  </organizations>\n  <resources>\n    <resource identifier=\"RES-1\" type=\"webcontent\" adlcp:scormtype=\"sco\" href=\"index.html\">\n      ") = true := by
    rfl
  have hC : fileHrefs (js "\n    </resource>\n  </resources>\n</manifest>") = [] := by
    rfl
  have hindex : ∀ x ∈ js "index.html", x ≠ 60 ∧ x ≠ 34 := by decide
  rw [manifest_text, List.append_assoc, List.append_assoc, List.append_assoc]
  rw [fileHrefs_noFileTag _ _ hA, fileHrefs_skip _ _ (fun x hx => (escapeHtml_clean T x hx).1),
    fileHrefs_noFileTag _ _ hB, fileHrefs_elements _ _ (by
      intro f hf
      rcases List.mem_cons.1 hf with rfl | hf
      · exact hindex
      · exact h f hf), hC]
  simp

theorem mem_sequenceSlides (compare : JSString → JSString → Int) (listing : List JSString)
    (n : JSString) (h : n ∈ sequenceSlides compare listing) : n ∈ listing := by
  unfold sequenceSlides arraySort at h
  exact List.mem_of_mem_filter ((List.perm_insertionSort _ _).mem_iff.1 h)

/-- C3. For every job that reaches sequencing with `N ≥ 1` slides `s_1 .. s_N`: the archive is
streamed (status 200) and is given exactly `N + 2` entries, `index.html`, `imsmanifest.xml`,
then `slides/s_1 .. slides/s_N` in sequence order; the second entry is the manifest, whose text
is the fixed markup around the escaped title and, inside the `resource` element, one
`<file href="..."/>` element for `index.html` followed by one for each `slides/s_i` in the same
order, and nothing else; read back from that text (for slide names without `<` or `"`), the
`file` elements are exactly these `N + 1`, in that order. -/
theorem archive_completeness (w : World) (req : Request) (hreach : ReachesSequencing w req)
    (hN : sequenceSlides w.compare w.listing ≠ []) :
    (convert w req).status = some 200 ∧
    (convert w req).archive.map Entry.name =
      js "index.html" :: js "imsmanifest.xml" ::
        (sequenceSlides w.compare w.listing).map (fun n => js "slides/" ++ n) ∧
    (convert w req).archive.length = (sequenceSlides w.compare w.listing).length + 2 ∧
    (convert w req).archive.get? 1 = some (Entry.data (js "imsmanifest.xml")
      (renderManifest (parseTitle req.fields)
        ((sequenceSlides w.compare w.listing).map (fun n => js "slides/" ++ n)))) ∧
    renderManifest (parseTitle req.fields)
        ((sequenceSlides w.compare w.listing).map (fun n => js "slides/" ++ n)) =
      js "<manifest identifier=\"MANIFEST-1\" version=\"1.0\"\n  xmlns:adlcp=\"http://www.adlnet.org/xsd/adlcp_rootv1p2\"\n  xmlns:imsmd=\"http://www.imsglobal.org/xsd/imsmd_rootv1p2p1\"\n  xmlns=\"http://www.imsproject.org/xsd/imscp_rootv1p1p2\">\n  <organizations default=\"ORG-1\">\n    <organization identifier=\"ORG-1\">\n      <title>"
      ++ escapeHtml (parseTitle req.fields) ++
      js "</title>\n      <item identifier=\"ITEM-1\" identifierref=\"RES-1\" isvisible=\"true\">\n        <title>Slides</title>\n      </item>\n    </organization>\n  </organizations>\n  <resources>\n    <resource identifier=\"RES-1\" type=\"webcontent\" adlcp:scormtype=\"sco\" href=\"index.html\">\n      "
      ++ ((js "index.html" ::
          (sequenceSlides w.compare w.listing).map (fun n => js "slides/" ++ n)).map
            (fun f => js "<file href=\"" ++ f ++ js "\"/>")).flatten
      ++ js "\n    </resource>\n  </resources>\n</manifest>" ∧
    ((∀ n ∈ w.listing, ∀ x ∈ n, x ≠ 60 ∧ x ≠ 34) →
      fileHrefs (renderManifest (parseTitle req.fields)
          ((sequenceSlides w.compare w.listing).map (fun n => js "slides/" ++ n))) =
        js "index.html" ::
          (sequenceSlides w.compare w.listing).map (fun n => js "slides/" ++ n) ∧
      (fileHrefs (renderManifest (parseTitle req.fields)
          ((sequenceSlides w.compare w.listing).map (fun n => js "slides/" ++ n)))).length =
        (sequenceSlides w.compare w.listing).length + 1) := by
  rw [convert_of_reaches w req hreach, if_neg hN]
  refine ⟨rfl, ?_, ?_, ?_, manifest_text _ _, ?_⟩
  · simp [package, runAfterStage2, runAfterStage1, runWithTmpDir, runStart, Entry.name,
      Function.comp_def]
  · simp [package, runAfterStage2, runAfterStage1, runWithTmpDir, runStart]
  · simp [package, runAfterStage2, runAfterStage1, runWithTmpDir, runStart]
  · intro hnames
    have hpaths : ∀ f ∈ (sequenceSlides w.compare w.listing).map (fun n => js "slides/" ++ n),
        ∀ x ∈ f, x ≠ 60 ∧ x ≠ 34 := by
      intro f hf x hx
      obtain ⟨n, hn, rfl⟩ := List.mem_map.1 hf
      rcases List.mem_append.1 hx with hx | hx
      · have hdir : ∀ y ∈ js "slides/", y ≠ 60 ∧ y ≠ 34 := by decide
        exact hdir x hx
      · exact hnames n (mem_sequenceSlides _ _ n hn) x hx
    have hrefs := fileHrefs_renderManifest (parseTitle req.fields) _ hpaths
    refine ⟨hrefs, ?_⟩
    rw [hrefs]
    simp

/-- C3 on the sample job, title `Demo` and three slides listed out of order: five archive
entries, slides in sequence order; the manifest is the text below, with four `file` elements,
`index.html` first. -/
theorem archive_completeness_witness :
    (convert sampleWorld sampleRequest).archive.map Entry.name =
      [js "index.html", js "imsmanifest.xml", js "slides/slide-1.png", js "slides/slide-2.png",
        js "slides/slide-10.png"] ∧
    (convert sampleWorld sampleRequest).archive.get? 1 = some (Entry.data (js "imsmanifest.xml")
      (js "<manifest identifier=\"MANIFEST-1\" version=\"1.0\"\n  xmlns:adlcp=\"http://www.adlnet.org/xsd/adlcp_rootv1p2\"\n  xmlns:imsmd=\"http://www.imsglobal.org/xsd/imsmd_rootv1p2p1\"\n  xmlns=\"http://www.imsproject.org/xsd/imscp_rootv1p1p2\">\n  <organizations default=\"ORG-1\">\n    <organization identifier=\"ORG-1\">\n      <title>Demo</title>\n      <item identifier=\"ITEM-1\" identifierref=\"RES-1\" isvisible=\"true\">\n        <title>Slides</title>\n      </item>\n    </organization>\n  </organizations>\n  <resources>\n    <resource identifier=\"RES-1\" type=\"webcontent\" adlcp:scormtype=\"sco\" href=\"index.html\">\n      <file href=\"index.html\"/><file href=\"slides/slide-1.png\"/><file href=\"slides/slide-2.png\"/><file href=\"slides/slide-10.png\"/>\n    </resource>\n  </resources>\n</manifest>")) ∧
    fileHrefs (js "<manifest identifier=\"MANIFEST-1\" version=\"1.0\"\n  xmlns:adlcp=\"http://www.adlnet.org/xsd/adlcp_rootv1p2\"\n  xmlns:imsmd=\"http://www.imsglobal.org/xsd/imsmd_rootv1p2p1\"\n  xmlns=\"http://www.imsproject.org/xsd/imscp_rootv1p1p2\">\n  <organizations default=\"ORG-1\">\n    <organization identifier=\"ORG-1\">\n      <title>Demo</title>\n      <item identifier=\"ITEM-1\" identifierref=\"RES-1\" isvisible=\"true\">\n        <title>Slides</title>\n      </item>\n    </organization>\n  </organizations>\n  <resources>\n    <resource identifier=\"RES-1\" type=\"webcontent\" adlcp:scormtype=\"sco\" href=\"index.html\">\n      <file href=\"index.html\"/><file href=\"slides/slide-1.png\"/><file href=\"slides/slide-2.png\"/><file href=\"slides/slide-10.png\"/>\n    </resource>\n  </resources>\n</manifest>") =
      [js "index.html", js "slides/slide-1.png", js "slides/slide-2.png",
        js "slides/slide-10.png"] :=
  ⟨(archive_completeness sampleWorld sampleRequest (by decide) (by decide)).2.1.trans
      (by decide),
    (archive_completeness sampleWorld sampleRequest (by decide) (by decide)).2.2.2.1.trans rfl,
    rfl⟩

/-! ## The empty slide list (C5) -/

/-- C5. For every job whose slides directory lists no entry with a lower-cased name ending in
`.png`: no archive entry is appended, no response header is set and no archive is streamed; and
when the job has reached sequencing (stage 2 has exited successfully and the directory has been
listed), the response is 500 with the message of the empty-sequence error. -/
theorem empty_slide_list_guard (w : World) (req : Request)
    (hnone : ∀ n ∈ w.listing, endsWith (toLowerCase n) (js ".png") = false) :
    (convert w req).archive = [] ∧ (convert w req).headers = [] ∧
    (convert w req).status ≠ some 200 ∧
    (ReachesSequencing w req →
      (convert w req).status = some 500 ∧
      (convert w req).body = js "Worker error: No slides produced. Check input file.") := by
  have hs := sequenceSlides_eq_nil w.compare w.listing hnone
  have hbody : js "Worker error: " ++ js "No slides produced. Check input file." =
      js "Worker error: No slides produced. Check input file." := by decide
  refine ⟨?_, ?_, ?_, ?_⟩
  · rcases convert_cases w req with h | h | h | h | h | h | h | h | h | h | h
    · rw [h.2]; rfl
    · obtain ⟨-, e, -, h⟩ := h; rw [h]; rfl
    · obtain ⟨-, -, e, -, h⟩ := h; rw [h]; rfl
    · obtain ⟨-, -, -, -, h⟩ := h; rw [h]; rfl
    · obtain ⟨-, -, -, -, e, -, h⟩ := h; rw [h]; rfl
    · obtain ⟨-, -, -, -, -, e, -, h⟩ := h; rw [h]; rfl
    · obtain ⟨-, e, -, h⟩ := h; rw [h]; rfl
    · obtain ⟨-, -, e, -, h⟩ := h; rw [h]; rfl
    · obtain ⟨-, -, -, e, -, h⟩ := h; rw [h]; rfl
    · obtain ⟨-, -, h⟩ := h; rw [h]; rfl
    · exact absurd hs h.2.1
  · rcases convert_cases w req with h | h | h | h | h | h | h | h | h | h | h
    · rw [h.2]; rfl
    · obtain ⟨-, e, -, h⟩ := h; rw [h]; rfl
    · obtain ⟨-, -, e, -, h⟩ := h; rw [h]; rfl
    · obtain ⟨-, -, -, -, h⟩ := h; rw [h]; rfl
    · obtain ⟨-, -, -, -, e, -, h⟩ := h; rw [h]; rfl
    · obtain ⟨-, -, -, -, -, e, -, h⟩ := h; rw [h]; rfl
    · obtain ⟨-, e, -, h⟩ := h; rw [h]; rfl
    · obtain ⟨-, -, e, -, h⟩ := h; rw [h]; rfl
    · obtain ⟨-, -, -, e, -, h⟩ := h; rw [h]; rfl
    · obtain ⟨-, -, h⟩ := h; rw [h]; rfl
    · exact absurd hs h.2.1
  · rcases convert_cases w req with h | h | h | h | h | h | h | h | h | h | h
    · rw [h.2]; simp
    · obtain ⟨-, e, -, h⟩ := h; rw [h]; simp [caught]
    · obtain ⟨-, -, e, -, h⟩ := h; rw [h]; simp [caught]
    · obtain ⟨-, -, -, -, h⟩ := h; rw [h]; simp [runWithTmpDir, runStart]
    · obtain ⟨-, -, -, -, e, -, h⟩ := h; rw [h]; simp [caught]
    · obtain ⟨-, -, -, -, -, e, -, h⟩ := h; rw [h]; simp [caught]
    · obtain ⟨-, e, -, h⟩ := h; rw [h]; simp [caught]
    · obtain ⟨-, -, e, -, h⟩ := h; rw [h]; simp [caught]
    · obtain ⟨-, -, -, e, -, h⟩ := h; rw [h]; simp [caught]
    · obtain ⟨-, -, h⟩ := h; rw [h]; simp [caught]
    · exact absurd hs h.2.1
  · intro hreach
    rw [convert_of_reaches w req hreach, if_pos hs]
    exact ⟨rfl, by simp only [caught, errorText_no_slides, hbody]⟩

/-- C5 on a job whose slides directory holds only `notes.txt`: status 500, nothing archived. -/
theorem empty_slide_list_guard_witness :
    (convert noSlidesWorld sampleRequest).status = some 500 ∧
    (convert noSlidesWorld sampleRequest).archive = [] :=
  ⟨((empty_slide_list_guard noSlidesWorld sampleRequest (by decide)).2.2.2 (by decide)).1,
    (empty_slide_list_guard noSlidesWorld sampleRequest (by decide)).1⟩

/-! ## The secret check (C6) -/

theorem status_ne_401_of_passes (w : World) (req : Request) (hp : PassesSecretCheck w req) :
    (convert w req).status ≠ some 401 := by
  rcases convert_cases w req with h | h | h | h | h | h | h | h | h | h | h
  · exact absurd hp h.1
  · obtain ⟨-, e, -, h⟩ := h; rw [h]; simp [caught]
  · obtain ⟨-, -, e, -, h⟩ := h; rw [h]; simp [caught]
  · obtain ⟨-, -, -, -, h⟩ := h; rw [h]; simp [runWithTmpDir, runStart]
  · obtain ⟨-, -, -, -, e, -, h⟩ := h; rw [h]; simp [caught]
  · obtain ⟨-, -, -, -, -, e, -, h⟩ := h; rw [h]; simp [caught]
  · obtain ⟨-, e, -, h⟩ := h; rw [h]; simp [caught]
  · obtain ⟨-, -, e, -, h⟩ := h; rw [h]; simp [caught]
  · obtain ⟨-, -, -, e, -, h⟩ := h; rw [h]; simp [caught]
  · obtain ⟨-, -, h⟩ := h; rw [h]; simp [caught]
  · obtain ⟨-, -, h⟩ := h; rw [h]; simp [package]

/-- C6 as stated fails: with the secret `s3cret` configured, a request presenting `s3cret`
followed by a no-break space (a value not equal to the configured secret) is not rejected; the
pipeline runs and the archive is streamed. -/
theorem padded_secret_not_rejected :
    sampleWorld.secretEnv = some (js "s3cret") ∧
    WORKER_SECRET sampleWorld.secretEnv = js "s3cret" ∧
    paddedSecretRequest.secretHeader = some (js "s3cret" ++ [160]) ∧
    js "s3cret" ++ [160] ≠ js "s3cret" ∧
    (convert sampleWorld paddedSecretRequest).status = some 200 := by decide

/-- C6, amended. For every request: when a worker secret is configured (`WORKER_SECRET`, the
trimmed environment variable, is not empty) and the secret the request presents, trimmed of
surrounding white space by `norm`, differs from it, the request is rejected with 401
`Unauthorized`, whether or not it carries a file, and no directory is created and no command
started; when no secret is configured no request is rejected by the check; and a request whose
trimmed secret equals the configured one is not rejected by the check. -/
theorem secret_check (w : World) (req : Request) :
    (WORKER_SECRET w.secretEnv ≠ [] → norm req.secretHeader ≠ WORKER_SECRET w.secretEnv →
      (convert w req).status = some 401 ∧ (convert w req).body = js "Unauthorized" ∧
      (convert w req).dirs = w.dirs ∧ (convert w req).commands = [] ∧
      (convert w req).archive = []) ∧
    (WORKER_SECRET w.secretEnv = [] → (convert w req).status ≠ some 401) ∧
    (norm req.secretHeader = WORKER_SECRET w.secretEnv → (convert w req).status ≠ some 401) := by
  refine ⟨?_, ?_, ?_⟩
  · intro h1 h2
    have : convert w req = { runStart w with status := some 401, body := js "Unauthorized" } := by
      unfold convert
      simp only [if_pos (show WORKER_SECRET w.secretEnv ≠ [] ∧
        norm req.secretHeader ≠ WORKER_SECRET w.secretEnv from ⟨h1, h2⟩), runStart]
    rw [this]
    exact ⟨rfl, rfl, rfl, rfl, rfl⟩
  · intro h
    exact status_ne_401_of_passes w req (fun hc => hc.1 h)
  · intro h
    exact status_ne_401_of_passes w req (fun hc => hc.2 h)

/-- C6, amended, on the sample world: a request presenting `guess` is rejected with 401 and
leaves the directories as they were, and is not rejected once no secret is configured. -/
theorem secret_check_witness :
    (convert sampleWorld wrongSecretRequest).status = some 401 ∧
    (convert sampleWorld wrongSecretRequest).dirs = sampleWorld.dirs ∧
    (convert openWorld wrongSecretRequest).status ≠ some 401 :=
  ⟨((secret_check sampleWorld wrongSecretRequest).1 (by decide) (by decide)).1,
    ((secret_check sampleWorld wrongSecretRequest).1 (by decide) (by decide)).2.2.1,
    (secret_check openWorld wrongSecretRequest).2.1 (by decide)⟩

/-! ## The title of the package (C9) -/

theorem default_title_length : (js "Converted Presentation").length ≤ 200 := by decide

theorem onField_length (t : JSString) (f : JSString × JSString) (ht : t.length ≤ 200) :
    (onField t f).length ≤ 200 := by
  unfold onField
  split_ifs
  · rw [List.length_take]; omega
  · exact ht

theorem foldl_onField_length (fields : List (JSString × JSString)) (t : JSString)
    (ht : t.length ≤ 200) : (fields.foldl onField t).length ≤ 200 := by
  induction fields generalizing t with
  | nil => exact ht
  | cons f fs ih => exact ih _ (onField_length t f ht)

theorem foldl_onField_no_title (fields : List (JSString × JSString)) (t : JSString)
    (h : ∀ f ∈ fields, f.1 = js "title" → f.2 = []) : fields.foldl onField t = t := by
  induction fields generalizing t with
  | nil => rfl
  | cons f fs ih =>
    have hf : onField t f = t := by
      unfold onField
      rw [if_neg]
      rintro ⟨h1, h2⟩
      exact h2 (h f (List.mem_cons_self _ _) h1)
    rw [List.foldl_cons, hf]
    exact ih t (fun g hg => h g (List.mem_cons_of_mem _ hg))

/-- C9. For every sequence of multipart fields: the title has length at most 200; it is
`Converted Presentation` when no `title` field is present or every `title` field is empty;
otherwise it is the value of the last non-empty `title` field, cut to its first 200 code units
(so, with a single `title` field, the supplied title capped at 200); and this is the title
with which `renderIndexHtml` and `renderManifest` produce the first two archive entries. -/
theorem package_title (fields : List (JSString × JSString)) :
    (parseTitle fields).length ≤ 200 ∧
    ((∀ f ∈ fields, f.1 = js "title" → f.2 = []) →
      parseTitle fields = js "Converted Presentation") ∧
    (∀ pre v post, fields = pre ++ (js "title", v) :: post → v ≠ [] →
      (∀ f ∈ post, f.1 = js "title" → f.2 = []) → parseTitle fields = v.take 200) ∧
    (∀ (w : World) (req : Request), req.fields = fields → ReachesSequencing w req →
      sequenceSlides w.compare w.listing ≠ [] →
      (convert w req).archive.take 2 =
        [Entry.data (js "index.html") (renderIndexHtml (parseTitle fields)
            ((sequenceSlides w.compare w.listing).map (fun n => js "slides/" ++ n))),
          Entry.data (js "imsmanifest.xml") (renderManifest (parseTitle fields)
            ((sequenceSlides w.compare w.listing).map (fun n => js "slides/" ++ n)))]) := by
  refine ⟨foldl_onField_length fields _ default_title_length,
    fun h => foldl_onField_no_title fields _ h, ?_, ?_⟩
  · intro pre v post hfields hv hpost
    unfold parseTitle
    rw [hfields, List.foldl_append, List.foldl_cons, foldl_onField_no_title post _ hpost]
    unfold onField
    rw [if_pos ⟨rfl, hv⟩]
  · intro w req hfields hreach hN
    rw [convert_of_reaches w req hreach, if_neg hN, ← hfields]
    simp [package, runAfterStage2, runAfterStage1, runWithTmpDir, runStart]

/-- C9 on the sample request: the single field `title=Demo` gives the title `Demo`, and no
field at all gives the default title. -/
theorem package_title_witness :
    parseTitle [(js "title", js "Demo")] = js "Demo" ∧
    parseTitle [] = js "Converted Presentation" :=
  ⟨((package_title [(js "title", js "Demo")]).2.2.1 [] (js "Demo") [] rfl (by decide)
      (by simp)).trans (by decide),
    (package_title []).2.1 (by simp)⟩

/-! ## The missing PDF (C8) -/

/-- C8 as stated fails: stage 1 exits successfully and leaves no PDF, yet stage 2 is started
with the path of that PDF, and the failure reported is the execution error of stage 2. -/
theorem missing_pdf_starts_stage2 :
    Stage1Succeeds missingPdfWorld sampleRequest ∧
    missingPdfWorld.pdfProduced = false ∧
    (convert missingPdfWorld sampleRequest).commands =
      [js "soffice --headless --convert-to pdf --outdir \"/tmp/V1StGXR8_Z5jdHi6B-myT\" \"/tmp/V1StGXR8_Z5jdHi6B-myT/deck.pptx\"",
       js "pdftoppm -png \"/tmp/V1StGXR8_Z5jdHi6B-myT/deck.pdf\" \"/tmp/V1StGXR8_Z5jdHi6B-myT/slides/slide\""] ∧
    (convert missingPdfWorld sampleRequest).status = some 500 ∧
    (convert missingPdfWorld sampleRequest).body =
      js "Worker error: Command failed: pdftoppm -png \"/tmp/V1StGXR8_Z5jdHi6B-myT/deck.pdf\" \"/tmp/V1StGXR8_Z5jdHi6B-myT/slides/slide\"\nI/O Error: Couldn\x27t open file" := by
  decide

/-- C8, amended. For every job in which stage 1 exits successfully but no file
`<workspace>/<baseName>.pdf` exists afterwards, no conversion error is raised at that point and
the handler goes on to the slides directory. If creating that directory fails, the job fails
with that error (500, `Worker error: ` and its message) and stage 2 is not started. Otherwise
stage 2 is started, with `/tmp/<id>/<baseName>.pdf` as its input; and if stage 2 then fails,
the job fails with the stage-execution error of stage 2 (500, `Worker error: ` and its
message), the slides directory having been created. -/
theorem missing_pdf_not_checked (w : World) (req : Request) (h : Stage1Succeeds w req)
    (_hpdf : w.pdfProduced = false) :
    (∀ e, w.ensureSlidesDir = some e →
      (convert w req).status = some 500 ∧
      (convert w req).body = js "Worker error: " ++ (if e = [] then js "Error" else e) ∧
      (convert w req).commands = [stage1Command w req]) ∧
    (w.ensureSlidesDir = none →
      (convert w req).commands =
        [stage1Command w req,
          js "pdftoppm -png \"" ++ js "/tmp/" ++ w.jobId ++ js "/" ++ baseNameOf req ++
            js ".pdf" ++ js "\" \"" ++ js "/tmp/" ++ w.jobId ++ js "/slides" ++ js "/slide\""]) ∧
    (∀ e, w.ensureSlidesDir = none → w.stage2 = some e →
      (convert w req).status = some 500 ∧
      (convert w req).body = js "Worker error: " ++ (if e = [] then js "Error" else e) ∧
      js "/tmp/" ++ w.jobId ++ js "/slides" ∈ (convert w req).dirs) := by
  have hcmd : stage2Command w req =
      js "pdftoppm -png \"" ++ js "/tmp/" ++ w.jobId ++ js "/" ++ baseNameOf req ++
        js ".pdf" ++ js "\" \"" ++ js "/tmp/" ++ w.jobId ++ js "/slides" ++ js "/slide\"" := by
    simp only [stage2Command, pdfPathOf, slidesDirOf, tmpDirOf, List.append_assoc]
  refine ⟨?_, ?_, ?_⟩
  · intro e h6
    rw [convert_of_stage1 w req h, h6]
    exact ⟨rfl, rfl, rfl⟩
  · intro h6
    rw [convert_of_stage1 w req h, h6, ← hcmd]
    cases h7 : w.stage2 with
    | some e => rfl
    | none =>
      cases h8 : w.readdirError with
      | some e => rfl
      | none =>
        by_cases h9 : sequenceSlides w.compare w.listing = []
        · simp only [if_pos h9]; rfl
        · simp only [if_neg h9]; rfl
  · intro e h6 h7
    rw [convert_of_stage1 w req h, h6, h7]
    refine ⟨rfl, rfl, ?_⟩
    show js "/tmp/" ++ w.jobId ++ js "/slides" ∈
      ensureDir (slidesDirOf w) (ensureDir (tmpDirOf w) w.dirs)
    unfold ensureDir slidesDirOf tmpDirOf
    split_ifs with h1 h2 h3 <;> simp_all

/-- C8, amended, on the job whose stage 1 leaves no PDF: stage 2 is started on
`/tmp/V1StGXR8_Z5jdHi6B-myT/deck.pdf` and its failure is what the response reports. -/
theorem missing_pdf_not_checked_witness :
    (convert missingPdfWorld sampleRequest).commands =
      [js "soffice --headless --convert-to pdf --outdir \"/tmp/V1StGXR8_Z5jdHi6B-myT\" \"/tmp/V1StGXR8_Z5jdHi6B-myT/deck.pptx\"",
       js "pdftoppm -png \"/tmp/V1StGXR8_Z5jdHi6B-myT/deck.pdf\" \"/tmp/V1StGXR8_Z5jdHi6B-myT/slides/slide\""] ∧
    (convert missingPdfWorld sampleRequest).status = some 500 :=
  ⟨((missing_pdf_not_checked missingPdfWorld sampleRequest (by decide) rfl).2.1 rfl).trans
      (by decide),
    ((missing_pdf_not_checked missingPdfWorld sampleRequest (by decide) rfl).2.2 _ rfl rfl).1⟩

/-! ## The body of the 500 response (C10) -/

/-- C10 as stated fails: when `soffice` exits with code 1, `exec` rejects with the message
`Command failed: <command line>` followed by the standard error output, and the body of the
500 response contains the job directory `/tmp/<id>`, the path of the uploaded file and the
standard error output of the tool. -/
theorem error_body_leaks_paths :
    (convert failingStage1World sampleRequest).status = some 500 ∧
    tmpDirOf failingStage1World = js "/tmp/V1StGXR8_Z5jdHi6B-myT" ∧
    uploadPathOf failingStage1World sampleRequest = js "/tmp/V1StGXR8_Z5jdHi6B-myT/deck.pptx" ∧
    failingStage1World.stage1 = some
      (js "Command failed: soffice --headless --convert-to pdf --outdir \"/tmp/V1StGXR8_Z5jdHi6B-myT\" \"/tmp/V1StGXR8_Z5jdHi6B-myT/deck.pptx\"\nError: source file could not be loaded") ∧
    (convert failingStage1World sampleRequest).body =
      js "Worker error: Command failed: soffice --headless --convert-to pdf --outdir \"/tmp/V1StGXR8_Z5jdHi6B-myT\" \"/tmp/V1StGXR8_Z5jdHi6B-myT/deck.pptx\"\nError: source file could not be loaded" ∧
    js "/tmp/V1StGXR8_Z5jdHi6B-myT" <:+: (convert failingStage1World sampleRequest).body ∧
    js "/tmp/V1StGXR8_Z5jdHi6B-myT/deck.pptx" <:+:
      (convert failingStage1World sampleRequest).body ∧
    js "Error: source file could not be loaded" <:+:
      (convert failingStage1World sampleRequest).body := by
  have hbody : (convert failingStage1World sampleRequest).body =
      js "Worker error: Command failed: soffice --headless --convert-to pdf --outdir \"" ++
        js "/tmp/V1StGXR8_Z5jdHi6B-myT" ++ js "\" \"" ++
        js "/tmp/V1StGXR8_Z5jdHi6B-myT/deck.pptx" ++ js "\"\n" ++
        js "Error: source file could not be loaded" := rfl
  refine ⟨by decide, by decide, by decide, rfl, rfl, ?_, ?_, ?_⟩
  · rw [hbody]
    exact ⟨js "Worker error: Command failed: soffice --headless --convert-to pdf --outdir \"",
      js "\" \"" ++ js "/tmp/V1StGXR8_Z5jdHi6B-myT/deck.pptx" ++ js "\"\n" ++
        js "Error: source file could not be loaded",
      by simp only [List.append_assoc]⟩
  · rw [hbody]
    exact ⟨js "Worker error: Command failed: soffice --headless --convert-to pdf --outdir \"" ++
        js "/tmp/V1StGXR8_Z5jdHi6B-myT" ++ js "\" \"",
      js "\"\n" ++ js "Error: source file could not be loaded",
      by simp only [List.append_assoc]⟩
  · rw [hbody]
    exact List.suffix_append _ _ |>.isInfix

/-- C10, amended. For every pipeline failure caught at the handler boundary the response is
500 and its body is `Worker error: ` followed by the message of the caught error, verbatim
(`Error` when that message is empty): the message of the failed creation of the job directory,
of the parser, of the write stream of the upload, of the rejected `exec` of stage 1, of the
failed creation of the slides directory, of the rejected `exec` of stage 2 or of the failed
directory listing, each in the run where that step is the first to fail, and the fixed text
`No slides produced. Check input file.` for the empty slide list; and every 500 response is one
of these. -/
theorem error_body_is_error_message (w : World) (req : Request) :
    (∀ e, PassesSecretCheck w req → w.ensureTmpDir = some e →
      (convert w req).status = some 500 ∧
      (convert w req).body = js "Worker error: " ++ (if e = [] then js "Error" else e)) ∧
    (∀ e, PassesSecretCheck w req → w.ensureTmpDir = none → w.parseError = some e →
      (convert w req).status = some 500 ∧
      (convert w req).body = js "Worker error: " ++ (if e = [] then js "Error" else e)) ∧
    (∀ e, PassesSecretCheck w req → w.ensureTmpDir = none → w.parseError = none →
      req.file.isSome = true → w.writeError = some e →
      (convert w req).status = some 500 ∧
      (convert w req).body = js "Worker error: " ++ (if e = [] then js "Error" else e)) ∧
    (∀ e, ReachesStage1 w req → w.stage1 = some e →
      (convert w req).status = some 500 ∧
      (convert w req).body = js "Worker error: " ++ (if e = [] then js "Error" else e)) ∧
    (∀ e, Stage1Succeeds w req → w.ensureSlidesDir = some e →
      (convert w req).status = some 500 ∧
      (convert w req).body = js "Worker error: " ++ (if e = [] then js "Error" else e)) ∧
    (∀ e, Stage1Succeeds w req → w.ensureSlidesDir = none → w.stage2 = some e →
      (convert w req).status = some 500 ∧
      (convert w req).body = js "Worker error: " ++ (if e = [] then js "Error" else e)) ∧
    (∀ e, Stage1Succeeds w req → w.ensureSlidesDir = none → w.stage2 = none →
      w.readdirError = some e →
      (convert w req).status = some 500 ∧
      (convert w req).body = js "Worker error: " ++ (if e = [] then js "Error" else e)) ∧
    (ReachesSequencing w req → sequenceSlides w.compare w.listing = [] →
      (convert w req).status = some 500 ∧
      (convert w req).body = js "Worker error: No slides produced. Check input file.") ∧
    ((convert w req).status = some 500 →
      ∃ e, (convert w req).body = js "Worker error: " ++ (if e = [] then js "Error" else e) ∧
        (w.ensureTmpDir = some e ∨ w.parseError = some e ∨ w.writeError = some e ∨
          w.stage1 = some e ∨ w.ensureSlidesDir = some e ∨ w.stage2 = some e ∨
          w.readdirError = some e ∨ e = js "No slides produced. Check input file.")) := by
  have hbody : js "Worker error: " ++ js "No slides produced. Check input file." =
      js "Worker error: No slides produced. Check input file." := by decide
  refine ⟨?_, ?_, ?_, ?_, ?_, ?_, ?_, ?_, ?_⟩
  · intro e hp h1
    unfold PassesSecretCheck at hp
    unfold convert
    simp only [if_neg hp, h1]
    exact ⟨rfl, rfl⟩
  · intro e hp h1 h2
    unfold PassesSecretCheck at hp
    unfold convert
    simp only [if_neg hp, h1, h2, parse]
    exact ⟨rfl, rfl⟩
  · intro e hp h1 h2 hf h4
    obtain ⟨f, h3⟩ := Option.isSome_iff_exists.1 hf
    unfold PassesSecretCheck at hp
    unfold convert
    simp only [if_neg hp, h1, h2, h3, h4, parse]
    exact ⟨rfl, rfl⟩
  · rintro e ⟨hp, h1, h2, hf, h4⟩ h5
    have hup : uploadPathOf w req ≠ [] := uploadPathOf_ne_nil w req hf
    obtain ⟨f, h3⟩ := Option.isSome_iff_exists.1 hf
    unfold PassesSecretCheck at hp
    unfold convert
    simp only [if_neg hp, h1, h2, h3, h4, h5, parse, if_neg hup]
    exact ⟨rfl, rfl⟩
  · intro e hs h6
    rw [convert_of_stage1 w req hs, h6]
    exact ⟨rfl, rfl⟩
  · intro e hs h6 h7
    rw [convert_of_stage1 w req hs, h6, h7]
    exact ⟨rfl, rfl⟩
  · intro e hs h6 h7 h8
    rw [convert_of_stage1 w req hs, h6, h7, h8]
    exact ⟨rfl, rfl⟩
  · intro hr h9
    rw [convert_of_reaches w req hr, if_pos h9]
    exact ⟨rfl, by simp only [caught, errorText_no_slides, hbody]⟩
  · intro h500
    rcases convert_cases w req with h | h | h | h | h | h | h | h | h | h | h
    · rw [h.2] at h500; simp at h500
    · obtain ⟨-, e, he, h⟩ := h
      exact ⟨e, by rw [h]; rfl, by simp [he]⟩
    · obtain ⟨-, -, e, he, h⟩ := h
      exact ⟨e, by rw [h]; rfl, by simp [he]⟩
    · obtain ⟨-, -, -, -, h⟩ := h
      rw [h] at h500; simp [runWithTmpDir, runStart] at h500
    · obtain ⟨-, -, -, -, e, he, h⟩ := h
      exact ⟨e, by rw [h]; rfl, by simp [he]⟩
    · obtain ⟨-, -, -, -, -, e, he, h⟩ := h
      exact ⟨e, by rw [h]; rfl, by simp [he]⟩
    · obtain ⟨-, e, he, h⟩ := h
      exact ⟨e, by rw [h]; rfl, by simp [he]⟩
    · obtain ⟨-, -, e, he, h⟩ := h
      exact ⟨e, by rw [h]; rfl, by simp [he]⟩
    · obtain ⟨-, -, -, e, he, h⟩ := h
      exact ⟨e, by rw [h]; rfl, by simp [he]⟩
    · obtain ⟨-, -, h⟩ := h
      exact ⟨_, by rw [h]; rfl, by simp⟩
    · obtain ⟨-, -, h⟩ := h
      rw [h] at h500; simp [package] at h500

/-- C10, amended, on the job whose stage 1 fails: the body is `Worker error: ` followed by the
message of the rejected `exec`, command line and standard error output included. -/
theorem error_body_is_error_message_witness :
    (convert failingStage1World sampleRequest).status = some 500 ∧
    (convert failingStage1World sampleRequest).body =
      js "Worker error: Command failed: soffice --headless --convert-to pdf --outdir \"/tmp/V1StGXR8_Z5jdHi6B-myT\" \"/tmp/V1StGXR8_Z5jdHi6B-myT/deck.pptx\"\nError: source file could not be loaded" :=
  ⟨((error_body_is_error_message failingStage1World sampleRequest).2.2.2.1 _ (by decide)
      rfl).1,
    ((error_body_is_error_message failingStage1World sampleRequest).2.2.2.1 _ (by decide)
      rfl).2.trans rfl⟩

/-! ## The job directory after a failure (C1) -/

/-- C1 fails on the code: a job whose stage 1 fails, a job whose stage 2 fails and a job that
produces no slide each end with a 500 response while the job directory, created by the run,
still exists. -/
theorem workspace_left_after_failure :
    (tmpDirOf failingStage1World ∉ failingStage1World.dirs ∧
      (convert failingStage1World sampleRequest).status = some 500 ∧
      tmpDirOf failingStage1World ∈ (convert failingStage1World sampleRequest).dirs) ∧
    (tmpDirOf missingPdfWorld ∉ missingPdfWorld.dirs ∧
      (convert missingPdfWorld sampleRequest).status = some 500 ∧
      tmpDirOf missingPdfWorld ∈ (convert missingPdfWorld sampleRequest).dirs) ∧
    (tmpDirOf noSlidesWorld ∉ noSlidesWorld.dirs ∧
      (convert noSlidesWorld sampleRequest).status = some 500 ∧
      tmpDirOf noSlidesWorld ∈ (convert noSlidesWorld sampleRequest).dirs) := by
  decide

end Ppt2Scorm
